import Mathlib

/-!
Verification of the excelsior date-format detection and sheet configuration
resolution subsystem (`excelsior/utils/date_format_detector.py`,
`excelsior/utils/data_processor.py`, `excelsior/schemas/split.py`).

The Python code is shallowly embedded: data-frame columns become lists of
optional strings (cells in the date column of the examples under scrutiny hold
strings, so `astype(str)` is the identity), the regular-expression literals of
the format catalog are translated into explicit token lists, and
`pd.to_datetime(value, format=fmt, errors="raise")` is modelled by a strptime
interpreter that follows the CPython/pandas `TimeRE` directive regexes,
calendar validation, and the pandas `Timestamp` bounds check (out-of-bounds
raises a `ValueError` subclass, which the detector catches like a parse
failure).  Exceptions become `Except` results.
-/

deriving instance DecidableEq for Except

namespace Excelsior

/-! ### Character helpers -/

/-- ASCII decimal digit test; models `\d` of the Python regexes on the ASCII
values that occur in date strings. -/
def isDigitCh (c : Char) : Bool := '0' ≤ c && c ≤ '9'

/-- `[A-Za-z]` character class of the month-name catalog regexes. -/
def isAlphaCh (c : Char) : Bool := ('A' ≤ c && c ≤ 'Z') || ('a' ≤ c && c ≤ 'z')

/-- Python `str.strip()` whitespace (ASCII portion). -/
def isSpaceCh (c : Char) : Bool :=
  c == ' ' || c == '\t' || c == '\n' || c == '\x0d' || c == '\x0b' || c == '\x0c'

/-- ASCII lower-casing, as used by the case-insensitive strptime regexes. -/
def toLowerCh (c : Char) : Char := if 'A' ≤ c && c ≤ 'Z' then Char.ofNat (c.toNat + 32) else c

/-- The decimal digit character for `k % 10`-style arguments (`0`-`9`). -/
def dch : Nat → Char
  | 0 => '0' | 1 => '1' | 2 => '2' | 3 => '3' | 4 => '4'
  | 5 => '5' | 6 => '6' | 7 => '7' | 8 => '8' | 9 => '9'
  | _ => '0'

/-- Numeric value of a decimal digit character. -/
def cv (c : Char) : Nat := c.toNat - 48

/-- Python `str.strip()`: drop leading and trailing whitespace. -/
def pyStrip (l : List Char) : List Char :=
  ((l.dropWhile isSpaceCh).reverse.dropWhile isSpaceCh).reverse

/-- `strip` on packed strings. -/
def pyStripS (s : String) : String := ⟨pyStrip s.data⟩

/-! ### The regular expressions of the format catalog

Every catalog regex is built from `^...$`-anchored sequences of bounded digit
runs (`\d{4}`, `\d{1,2}`, `\d{2}`), literal characters, and `[A-Za-z]+`.  Each
regex literal from the source is translated into a `List Tok`; matching is the
standard backtracking semantics (a match exists for some choice of run
lengths), with both anchors, as `re.match` with a trailing `$` behaves on the
stripped values the detector feeds it. -/

inductive Tok where
  | digits (lo hi : Nat)
  | lit (c : Char)
  | alpha
  deriving DecidableEq, Repr

/-- Consume exactly `n` digit characters. -/
def takeDigits : Nat → List Char → Option (List Char)
  | 0, cs => some cs
  | _ + 1, [] => none
  | n + 1, c :: cs => if isDigitCh c then takeDigits n cs else none

/-- `\d{lo,hi}` followed by a continuation. -/
def digitsThen (lo hi : Nat) (k : List Char → Bool) (cs : List Char) : Bool :=
  (List.range' lo (hi + 1 - lo)).any fun n =>
    match takeDigits n cs with
    | some rest => k rest
    | none => false

/-- Continuation part of `[A-Za-z]+`: keep consuming letters, trying the
continuation after each one (backtracking semantics). -/
def alphaGo (k : List Char → Bool) : List Char → Bool
  | [] => false
  | c :: rest => isAlphaCh c && (k rest || alphaGo k rest)

/-- `[A-Za-z]+` followed by a continuation. -/
def alphaThen (k : List Char → Bool) (cs : List Char) : Bool := alphaGo k cs

/-- Anchored matcher for a token list. -/
def matchToks : List Tok → List Char → Bool
  | [] => fun cs => cs.isEmpty
  | Tok.digits lo hi :: ts => digitsThen lo hi (matchToks ts)
  | Tok.lit c :: ts => fun cs =>
      match cs with
      | c' :: rest => c' == c && matchToks ts rest
      | [] => false
  | Tok.alpha :: ts => alphaThen (matchToks ts)

/-- Matching on packed strings. -/
def matchS (ts : List Tok) (s : String) : Bool := matchToks ts s.data

/-! ### The format catalog

`DateFormatDetector.__init__`: the ordered `format_patterns` list.  Each
original regex literal is recorded in the comment next to its token
translation. -/

def formatPatterns : List (String × List Tok) := [
  -- ISO formats (most common first)
  ("%Y-%m-%d",                -- r"^\d{4}-\d{1,2}-\d{1,2}$"
    [Tok.digits 4 4, Tok.lit '-', Tok.digits 1 2, Tok.lit '-', Tok.digits 1 2]),
  ("%Y-%m-%d %H:%M:%S",       -- r"^\d{4}-\d{1,2}-\d{1,2} \d{1,2}:\d{2}:\d{2}$"
    [Tok.digits 4 4, Tok.lit '-', Tok.digits 1 2, Tok.lit '-', Tok.digits 1 2,
     Tok.lit ' ', Tok.digits 1 2, Tok.lit ':', Tok.digits 2 2, Tok.lit ':', Tok.digits 2 2]),
  ("%Y-%m-%d %H:%M",          -- r"^\d{4}-\d{1,2}-\d{1,2} \d{1,2}:\d{2}$"
    [Tok.digits 4 4, Tok.lit '-', Tok.digits 1 2, Tok.lit '-', Tok.digits 1 2,
     Tok.lit ' ', Tok.digits 1 2, Tok.lit ':', Tok.digits 2 2]),
  -- Common Worldwide formats
  ("%d/%m/%Y",                -- r"^\d{1,2}/\d{1,2}/\d{4}$"
    [Tok.digits 1 2, Tok.lit '/', Tok.digits 1 2, Tok.lit '/', Tok.digits 4 4]),
  ("%d/%m/%y",                -- r"^\d{1,2}/\d{1,2}/\d{2}$"
    [Tok.digits 1 2, Tok.lit '/', Tok.digits 1 2, Tok.lit '/', Tok.digits 2 2]),
  ("%d-%m-%Y",                -- r"^\d{1,2}-\d{1,2}-\d{4}$"
    [Tok.digits 1 2, Tok.lit '-', Tok.digits 1 2, Tok.lit '-', Tok.digits 4 4]),
  ("%d-%m-%y",                -- r"^\d{1,2}-\d{1,2}-\d{2}$"
    [Tok.digits 1 2, Tok.lit '-', Tok.digits 1 2, Tok.lit '-', Tok.digits 2 2]),
  ("%d.%m.%Y",                -- r"^\d{1,2}\.\d{1,2}\.\d{4}$"
    [Tok.digits 1 2, Tok.lit '.', Tok.digits 1 2, Tok.lit '.', Tok.digits 4 4]),
  ("%d.%m.%y",                -- r"^\d{1,2}\.\d{1,2}\.\d{2}$"
    [Tok.digits 1 2, Tok.lit '.', Tok.digits 1 2, Tok.lit '.', Tok.digits 2 2]),
  -- Common US formats
  ("%m/%d/%Y",                -- r"^\d{1,2}/\d{1,2}/\d{4}$"
    [Tok.digits 1 2, Tok.lit '/', Tok.digits 1 2, Tok.lit '/', Tok.digits 4 4]),
  ("%m/%d/%y",                -- r"^\d{1,2}/\d{1,2}/\d{2}$"
    [Tok.digits 1 2, Tok.lit '/', Tok.digits 1 2, Tok.lit '/', Tok.digits 2 2]),
  ("%m-%d-%Y",                -- r"^\d{1,2}-\d{1,2}-\d{4}$"
    [Tok.digits 1 2, Tok.lit '-', Tok.digits 1 2, Tok.lit '-', Tok.digits 4 4]),
  ("%m-%d-%y",                -- r"^\d{1,2}-\d{1,2}-\d{2}$"
    [Tok.digits 1 2, Tok.lit '-', Tok.digits 1 2, Tok.lit '-', Tok.digits 2 2]),
  -- Other common formats
  ("%Y/%m/%d",                -- r"^\d{4}/\d{1,2}/\d{1,2}$"
    [Tok.digits 4 4, Tok.lit '/', Tok.digits 1 2, Tok.lit '/', Tok.digits 1 2]),
  ("%Y.%m.%d",                -- r"^\d{4}\.\d{1,2}\.\d{1,2}$"
    [Tok.digits 4 4, Tok.lit '.', Tok.digits 1 2, Tok.lit '.', Tok.digits 1 2]),
  ("%B %d, %Y",               -- r"^[A-Za-z]+ \d{1,2}, \d{4}$"
    [Tok.alpha, Tok.lit ' ', Tok.digits 1 2, Tok.lit ',', Tok.lit ' ', Tok.digits 4 4]),
  ("%b %d, %Y",               -- r"^[A-Za-z]+ \d{1,2}, \d{4}$"
    [Tok.alpha, Tok.lit ' ', Tok.digits 1 2, Tok.lit ',', Tok.lit ' ', Tok.digits 4 4]),
  ("%d %B %Y",                -- r"^\d{1,2} [A-Za-z]+ \d{4}$"
    [Tok.digits 1 2, Tok.lit ' ', Tok.alpha, Tok.lit ' ', Tok.digits 4 4]),
  ("%d %b %Y",                -- r"^\d{1,2} [A-Za-z]+ \d{4}$"
    [Tok.digits 1 2, Tok.lit ' ', Tok.alpha, Tok.lit ' ', Tok.digits 4 4])]

/-! ### Strict date parsing (`pd.to_datetime(value, format=fmt, errors="raise")`)

pandas parses a scalar string against an explicit format with a strptime
clone of CPython's `_strptime`: the format is turned into an anchored,
case-insensitive regex built from per-directive patterns (whitespace runs in
the format become `\s+`), the named groups are converted to a datetime, and
the result must fit in the `pd.Timestamp` range (`1677-09-21 00:12:43.145…` to
`2262-04-11 23:47:16.854…`); a violation raises a `ValueError` subclass.  The
interpreter below mirrors that: each directive yields the list of all regex
alternatives (backtracking), and a parse succeeds when some full-consumption
run produces a calendar-valid, in-bounds datetime. -/

inductive Dir where
  | dY    -- %Y : (?P<Y>\d\d\d\d)
  | dy2   -- %y : (?P<y>\d\d)
  | dm    -- %m : (?P<m>1[0-2]|0[1-9]|[1-9])
  | dd    -- %d : (?P<d>3[01]|[12]\d|0[1-9]|[1-9])
  | dH    -- %H : (?P<H>2[0-3]|[0-1]\d|\d)
  | dMin  -- %M : (?P<M>[0-5]\d|\d)
  | dS    -- %S : (?P<S>6[0-1]|[0-5]\d|\d)
  | dB    -- %B : full month names, case-insensitive
  | db    -- %b : abbreviated month names, case-insensitive
  | lit (c : Char)
  | ws    -- a whitespace run in the format: \s+
  deriving DecidableEq, Repr

/-- Directive characters the catalog uses (unknown directives make the strptime
regex construction raise, which the detector treats as a non-parse). -/
def dirOfChar : Char → Option Dir
  | 'Y' => some Dir.dY
  | 'y' => some Dir.dy2
  | 'm' => some Dir.dm
  | 'd' => some Dir.dd
  | 'H' => some Dir.dH
  | 'M' => some Dir.dMin
  | 'S' => some Dir.dS
  | 'B' => some Dir.dB
  | 'b' => some Dir.db
  | '%' => some (Dir.lit '%')
  | _ => none

def tokAux : List Char → Option (List Dir)
  | [] => some []
  | '%' :: [] => none
  | '%' :: c :: rest =>
      match dirOfChar c with
      | some d => (tokAux rest).map (d :: ·)
      | none => none
  | c :: rest =>
      (tokAux rest).map ((if isSpaceCh c then Dir.ws else Dir.lit c) :: ·)

/-- CPython substitutes every whitespace *run* of the format by a single
`\s+`, so adjacent whitespace directives collapse (the flag records whether
the previous directive was whitespace). -/
def collapseWsAux : Bool → List Dir → List Dir
  | _, [] => []
  | prevWs, Dir.ws :: rest =>
      if prevWs then collapseWsAux true rest else Dir.ws :: collapseWsAux true rest
  | _, d :: rest => d :: collapseWsAux false rest

def collapseWs (l : List Dir) : List Dir := collapseWsAux false l

def tokenizeFormat (fmt : List Char) : Option (List Dir) :=
  (tokAux fmt).map collapseWs

/-- `%Y`: exactly four digits. -/
def altsY (cs : List Char) : List (Nat × List Char) :=
  match cs with
  | a :: b :: c :: d :: rest =>
      if isDigitCh a && isDigitCh b && isDigitCh c && isDigitCh d then
        [(cv a * 1000 + cv b * 100 + cv c * 10 + cv d, rest)]
      else []
  | _ => []

/-- `%y`: exactly two digits. -/
def altsY2 (cs : List Char) : List (Nat × List Char) :=
  match cs with
  | a :: b :: rest =>
      if isDigitCh a && isDigitCh b then [(cv a * 10 + cv b, rest)] else []
  | _ => []

/-- `%m`: `1[0-2]|0[1-9]|[1-9]`. -/
def altsM (cs : List Char) : List (Nat × List Char) :=
  (match cs with
   | a :: b :: rest =>
       (if a == '1' && '0' ≤ b && b ≤ '2' then [(10 + cv b, rest)] else []) ++
       (if a == '0' && '1' ≤ b && b ≤ '9' then [(cv b, rest)] else [])
   | _ => []) ++
  (match cs with
   | a :: rest => if '1' ≤ a && a ≤ '9' then [(cv a, rest)] else []
   | _ => [])

/-- `%d`: `3[01]|[12]\d|0[1-9]|[1-9]`. -/
def altsD (cs : List Char) : List (Nat × List Char) :=
  (match cs with
   | a :: b :: rest =>
       (if a == '3' && (b == '0' || b == '1') then [(30 + cv b, rest)] else []) ++
       (if (a == '1' || a == '2') && isDigitCh b then [(cv a * 10 + cv b, rest)] else []) ++
       (if a == '0' && '1' ≤ b && b ≤ '9' then [(cv b, rest)] else [])
   | _ => []) ++
  (match cs with
   | a :: rest => if '1' ≤ a && a ≤ '9' then [(cv a, rest)] else []
   | _ => [])

/-- `%H`: `2[0-3]|[0-1]\d|\d`. -/
def altsH (cs : List Char) : List (Nat × List Char) :=
  (match cs with
   | a :: b :: rest =>
       (if a == '2' && '0' ≤ b && b ≤ '3' then [(20 + cv b, rest)] else []) ++
       (if (a == '0' || a == '1') && isDigitCh b then [(cv a * 10 + cv b, rest)] else [])
   | _ => []) ++
  (match cs with
   | a :: rest => if isDigitCh a then [(cv a, rest)] else []
   | _ => [])

/-- `%M`: `[0-5]\d|\d`. -/
def altsMin (cs : List Char) : List (Nat × List Char) :=
  (match cs with
   | a :: b :: rest =>
       if '0' ≤ a && a ≤ '5' && isDigitCh b then [(cv a * 10 + cv b, rest)] else []
   | _ => []) ++
  (match cs with
   | a :: rest => if isDigitCh a then [(cv a, rest)] else []
   | _ => [])

/-- `%S`: `6[0-1]|[0-5]\d|\d` (regex admits leap seconds; datetime
construction rejects them afterwards). -/
def altsS (cs : List Char) : List (Nat × List Char) :=
  (match cs with
   | a :: b :: rest =>
       (if a == '6' && (b == '0' || b == '1') then [(60 + cv b, rest)] else []) ++
       (if '0' ≤ a && a ≤ '5' && isDigitCh b then [(cv a * 10 + cv b, rest)] else [])
   | _ => []) ++
  (match cs with
   | a :: rest => if isDigitCh a then [(cv a, rest)] else []
   | _ => [])

/-- Case-insensitive prefix match of a (lower-case) name. -/
def stripCI : List Char → List Char → Option (List Char)
  | [], cs => some cs
  | _ :: _, [] => none
  | n :: ns, c :: cs => if toLowerCh c == n then stripCI ns cs else none

def monthsFull : List (Nat × String) :=
  [(1, "january"), (2, "february"), (3, "march"), (4, "april"), (5, "may"),
   (6, "june"), (7, "july"), (8, "august"), (9, "september"), (10, "october"),
   (11, "november"), (12, "december")]

def monthsAbbr : List (Nat × String) :=
  [(1, "jan"), (2, "feb"), (3, "mar"), (4, "apr"), (5, "may"), (6, "jun"),
   (7, "jul"), (8, "aug"), (9, "sep"), (10, "oct"), (11, "nov"), (12, "dec")]

def altsName (table : List (Nat × String)) (cs : List Char) : List (Nat × List Char) :=
  table.filterMap fun p =>
    match stripCI p.2.data cs with
    | some rest => some (p.1, rest)
    | none => none

/-- All suffixes reachable by consuming `\s+` (one or more whitespace). -/
def wsAlts : List Char → List (List Char)
  | [] => []
  | c :: rest => if isSpaceCh c then rest :: wsAlts rest else []

/-- Partially parsed datetime fields (regex named groups). -/
structure PFields where
  y4 : Option Nat := none
  y2 : Option Nat := none
  mon : Option Nat := none
  day : Option Nat := none
  hour : Option Nat := none
  minute : Option Nat := none
  sec : Option Nat := none
  deriving DecidableEq, Repr

def emptyF : PFields := {}

/-- One directive step: all `(remaining-input, fields)` alternatives. -/
def stepAlts (d : Dir) (cs : List Char) (f : PFields) : List (List Char × PFields) :=
  match d with
  | Dir.dY => (altsY cs).map fun p => (p.2, {f with y4 := some p.1})
  | Dir.dy2 => (altsY2 cs).map fun p => (p.2, {f with y2 := some p.1})
  | Dir.dm => (altsM cs).map fun p => (p.2, {f with mon := some p.1})
  | Dir.dd => (altsD cs).map fun p => (p.2, {f with day := some p.1})
  | Dir.dH => (altsH cs).map fun p => (p.2, {f with hour := some p.1})
  | Dir.dMin => (altsMin cs).map fun p => (p.2, {f with minute := some p.1})
  | Dir.dS => (altsS cs).map fun p => (p.2, {f with sec := some p.1})
  | Dir.dB => (altsName monthsFull cs).map fun p => (p.2, {f with mon := some p.1})
  | Dir.db => (altsName monthsAbbr cs).map fun p => (p.2, {f with mon := some p.1})
  | Dir.lit c =>
      match cs with
      | c' :: rest => if toLowerCh c' == toLowerCh c then [(rest, f)] else []
      | [] => []
  | Dir.ws => (wsAlts cs).map fun rest => (rest, f)

def seqAlts (g : List Char × PFields → List PFields) : List (List Char × PFields) → List PFields
  | [] => []
  | a :: rest => g a ++ seqAlts g rest

/-- Run a directive list over the input, collecting every full-consumption
parse (backtracking regex semantics). -/
def runDirs : List Dir → List Char × PFields → List PFields
  | [] => fun p => if p.1.isEmpty then [p.2] else []
  | d :: ds => fun p => seqAlts (runDirs ds) (stepAlts d p.1 p.2)

def isLeap (y : Nat) : Bool := (y % 4 == 0 && y % 100 != 0) || y % 400 == 0

def daysInMonth (y m : Nat) : Nat :=
  match m with
  | 1 => 31 | 3 => 31 | 5 => 31 | 7 => 31 | 8 => 31 | 10 => 31 | 12 => 31
  | 4 => 30 | 6 => 30 | 9 => 30 | 11 => 30
  | 2 => if isLeap y then 29 else 28
  | _ => 0

/-- Lexicographic comparison of equal-length numeric tuples. -/
def lexLe : List Nat → List Nat → Bool
  | [], _ => true
  | _ :: _, [] => true
  | a :: as, b :: bs => a < b || (a == b && lexLe as bs)

/-- The `pd.Timestamp` bounds: min `1677-09-21 00:12:43.145224193`, max
`2262-04-11 23:47:16.854775807`; parsed datetimes carry zero nanoseconds, so a
whole-second datetime is representable iff it is at least `…00:12:44` and at
most `…23:47:16`. -/
def inBoundsTs (y mo d h mi s : Nat) : Bool :=
  lexLe [1677, 9, 21, 0, 12, 44] [y, mo, d, h, mi, s] &&
  lexLe [y, mo, d, h, mi, s] [2262, 4, 11, 23, 47, 16]

/-- Two-digit year rule (`%y`): `00`-`68` ↦ 2000s, `69`-`99` ↦ 1900s. -/
def mapY2 (r : Nat) : Nat := if r ≤ 68 then 2000 + r else 1900 + r

/-- Convert matched groups to a datetime and validate it, as
`datetime`/`Timestamp` construction does (defaults: year 1900, month 1, day 1,
zero time-of-day). -/
def validFields (f : PFields) : Bool :=
  let y := match f.y4 with
    | some y => y
    | none => match f.y2 with
      | some r => mapY2 r
      | none => 1900
  let mo := f.mon.getD 1
  let d := f.day.getD 1
  let h := f.hour.getD 0
  let mi := f.minute.getD 0
  let s := f.sec.getD 0
  decide (1 ≤ mo) && decide (mo ≤ 12) && decide (1 ≤ d) &&
  decide (d ≤ daysInMonth y mo) && decide (h ≤ 23) && decide (mi ≤ 59) &&
  decide (s ≤ 59) && inBoundsTs y mo d h mi s

/-- `pd.to_datetime(value, format=fmt, errors="raise")` succeeds. -/
def parseOk (fmt : String) (v : List Char) : Bool :=
  match tokenizeFormat fmt.data with
  | none => false
  | some dirs => (runDirs dirs (v, emptyF)).any validFields

def parseOkS (fmt : String) (s : String) : Bool := parseOk fmt s.data

/-! ### The date-format detector (`DateFormatDetector`) -/

/-- `_detect_format_from_value`'s loop body: first catalog entry whose regex
matches and whose strict parse succeeds (a parse failure falls through to the
next pattern). -/
def detectLoop : List (String × List Tok) → List Char → Option String
  | [], _ => none
  | (fmt, rx) :: rest, v =>
      if matchToks rx v && parseOk fmt v then some fmt else detectLoop rest v

/-- `DateFormatDetector._detect_format_from_value`. -/
def detectFromValue (v : List Char) : Option String := detectLoop formatPatterns v

def detectFromValueS (s : String) : Option String := detectFromValue s.data

/-- A loaded sheet: named columns of optional cells.  The date columns under
study hold strings, so the detector's `astype(str)` is the identity here. -/
structure PyFrame where
  cols : List (String × List (Option String))
  deriving DecidableEq, Repr

def colNames (f : PyFrame) : List String := f.cols.map Prod.fst

def lookupCol (f : PyFrame) (name : String) : Option (List (Option String)) :=
  (f.cols.find? (fun p => p.1 == name)).map Prod.snd

/-- `series.dropna()` with the original (positional) row labels kept. -/
def dropnaAux (i : Nat) : List (Option String) → List (Nat × String)
  | [] => []
  | none :: rest => dropnaAux (i + 1) rest
  | some v :: rest => (i, v) :: dropnaAux (i + 1) rest

def dropna (cells : List (Option String)) : List (Nat × String) := dropnaAux 0 cells

/-- Regex pattern of the detected format (`for fmt, pat in self.format_patterns`). -/
def findPattern (fmt : String) : Option (List Tok) :=
  (formatPatterns.find? (fun p => p.1 == fmt)).map Prod.snd

/-- The `_validate_format_consistency` collection loop: record `(index,
stripped value)` for every value that fails the regex or, having matched, the
strict parse; stop collecting once 5 mismatches are held. -/
def collectMismatches (rx : List Tok) (fmt : String) :
    List String → Nat → List (Nat × String) → List (Nat × String)
  | [], _, acc => acc.reverse
  | v :: rest, i, acc =>
      let sv := pyStripS v
      let acc' :=
        if !matchS rx sv then (i, sv) :: acc
        else if !parseOkS fmt sv then (i, sv) :: acc
        else acc
      if 5 ≤ acc'.length then acc'.reverse
      else collectMismatches rx fmt rest (i + 1) acc'

/-- Count of values failing the *regex* test, used by
`_raise_consistency_error` as the reported total. -/
def totalRegexMismatches (rx : List Tok) (vals : List String) : Nat :=
  (vals.filter fun v => !matchS rx (pyStripS v)).length

/-- Payload of the `DateFormatDetectionError` raised for inconsistent columns:
detected format, reported total, example rows `(original row label, value)`,
and whether the "(showing first 5)" note is attached. -/
structure InconsistentInfo where
  column : String
  format : String
  total : Nat
  examples : List (Nat × String)
  truncated : Bool
  deriving DecidableEq, Repr

/-- `_raise_consistency_error`: examples are the first 5 collected mismatches,
re-indexed through `date_values.index`; the total and the truncation note come
from the regex-only recount over all values. -/
def mkInconsistent (mism : List (Nat × String)) (vals : List String)
    (origIdx : List Nat) (fmt col : String) (rx : List Tok) : InconsistentInfo :=
  let total := totalRegexMismatches rx vals
  { column := col
    format := fmt
    total := total
    examples := (mism.take 5).map fun p => (origIdx.getD p.1 0, p.2)
    truncated := decide (5 < total) }

/-- `_validate_format_consistency`: `none` means the column is consistent. -/
def validateConsistency (vals : List String) (origIdx : List Nat)
    (fmt col : String) : Option InconsistentInfo :=
  match findPattern fmt with
  | none => none   -- "should not happen" safety branch: return silently
  | some rx =>
      match collectMismatches rx fmt vals 0 [] with
      | [] => none
      | m :: ms => some (mkInconsistent (m :: ms) vals origIdx fmt col rx)

inductive DetectErr where
  | missingColumn (column : String) (available : List String)
  | noValidData (column : String)
  | inconsistent (info : InconsistentInfo)
  deriving DecidableEq, Repr

/-- `DateFormatDetector.detect_date_format`. -/
def detect_date_format (data : PyFrame) (dateColumn : String) :
    Except DetectErr (Option String) :=
  match lookupCol data dateColumn with
  | none => Except.error (DetectErr.missingColumn dateColumn (colNames data))
  | some cells =>
      match dropna cells with
      | [] => Except.error (DetectErr.noValidData dateColumn)
      | (i0, v0) :: rest =>
          let pairs := (i0, v0) :: rest
          let stringValues := pairs.map Prod.snd
          let origIdx := pairs.map Prod.fst
          match detectFromValueS (pyStripS v0) with
          | none => Except.ok none
          | some fmt =>
              match validateConsistency stringValues origIdx fmt dateColumn with
              | some info => Except.error (DetectErr.inconsistent info)
              | none => Except.ok (some fmt)

/-! ### The sheet-config schema (`excelsior/schemas/split.py`) -/

/-- A validated `SheetConfig` pydantic model.  (`include` is a Lean keyword,
hence the field name `included`; it models the source's `include` field.) -/
structure SheetConfigR where
  date_column : Option String := none
  date_format : Option String := none
  included : Bool := true
  deriving DecidableEq, Repr

/-- Python truthiness of an optional string (`None` and `""` are falsy). -/
def isTruthy : Option String → Bool
  | none => false
  | some s => !s.isEmpty

/-- The `date_format` field validator of `SheetConfig`: non-blank, must
contain a `%`; stored stripped. -/
def mkSheetConfigFmt (dc' df : Option String) (inc : Bool) : Except String SheetConfigR :=
  match df with
  | some s =>
      if (pyStripS s).isEmpty then
        Except.error "Date format cannot be empty or whitespace only"
      else if !s.data.contains '%' then
        Except.error "Date format must contain datetime format specifiers (e.g., %Y, %m, %d)"
      else Except.ok { date_column := dc', date_format := some (pyStripS s), included := inc }
  | none => Except.ok { date_column := dc', date_format := none, included := inc }

/-- `SheetConfig(**config_dict)` construction with the two field validators:
`date_column` must be non-blank, is stored stripped; `date_format` must be
non-blank and contain a `%`, is stored stripped. -/
def mkSheetConfig (dc df : Option String) (inc : Bool) : Except String SheetConfigR :=
  match dc with
  | some s =>
      if (pyStripS s).isEmpty then
        Except.error "Date column name cannot be empty or whitespace only"
      else mkSheetConfigFmt (some (pyStripS s)) df inc
  | none => mkSheetConfigFmt none df inc

/-- A loaded `SplitSheetConfigSchema`: sheet name ↦ per-sheet config. -/
abbrev CfgMap := List (String × SheetConfigR)

def lookupCfg (cfg : CfgMap) (s : String) : Option SheetConfigR :=
  ((cfg : List (String × SheetConfigR)).find? (fun p => p.1 == s)).map Prod.snd

/-! ### The sheet-configuration resolver
(`SheetConfigProcessor.resolve_sheet_configs`) -/

/-- `None`/falsy-collapsing of a global CLI value: the key is put in
`config_dict` only when the value is truthy. -/
def normTruthy (o : Option String) : Option String := if isTruthy o then o else none

/-- `config_dict["date_column"]` after steps 1-2 (global seed, then per-sheet
override when the per-sheet field is truthy). -/
def mergedColumn (gdc : Option String) (cfg : Option CfgMap) (s : String) : Option String :=
  match cfg with
  | some c =>
      match lookupCfg c s with
      | some e => if isTruthy e.date_column then e.date_column else normTruthy gdc
      | none => normTruthy gdc
  | none => normTruthy gdc

/-- `config_dict["date_format"]` after steps 1-2. -/
def mergedFormat (gdf : Option String) (cfg : Option CfgMap) (s : String) : Option String :=
  match cfg with
  | some c =>
      match lookupCfg c s with
      | some e => if isTruthy e.date_format then e.date_format else normTruthy gdf
      | none => normTruthy gdf
  | none => normTruthy gdf

inductive ResolveErr where
  | missingDateColumn (sheet : String)
  | detection (e : DetectErr)     -- DateFormatDetectionError wrapped as SheetConfigError
  | invalidField (msg : String)   -- pydantic ValidationError from SheetConfig(**config_dict)
  deriving DecidableEq, Repr

abbrev SheetDataMap := List (String × PyFrame)

def lookupData (m : SheetDataMap) (s : String) : Option PyFrame :=
  ((m : List (String × PyFrame)).find? (fun p => p.1 == s)).map Prod.snd

/-- One iteration of the `resolve_sheet_configs` loop for sheet `s`. -/
def resolveOne (s : String) (sheetData : Option SheetDataMap)
    (gdc gdf : Option String) (cfg : Option CfgMap) : Except ResolveErr SheetConfigR :=
  let c1 := mergedColumn gdc cfg s
  let f1 := mergedFormat gdf cfg s
  if isTruthy c1 = false then
    Except.error (ResolveErr.missingDateColumn s)
  else
    let dc := c1.getD ""   -- truthy, hence a present non-empty string
    let detected :=
      if !isTruthy f1 then
        match sheetData with
        | some m =>
            match lookupData m s with
            | some frame =>
                match detect_date_format frame dc with
                | Except.error e => Except.error (ResolveErr.detection e)
                | Except.ok r => Except.ok r
            | none => Except.ok none
        | none => Except.ok none
      else Except.ok none
    match detected with
    | Except.error e => Except.error e
    | Except.ok r =>
        let f2 := match r with
          | some dfmt => some dfmt   -- `if detected_format:` (detector never yields "")
          | none => f1
        match mkSheetConfig c1 f2 true with
        | Except.error m => Except.error (ResolveErr.invalidField m)
        | Except.ok sc => Except.ok sc

/-- `SheetConfigProcessor.resolve_sheet_configs`: loop over the sheet names in
order, failing fast on the first error (no partial map escapes). -/
def resolve_sheet_configs (sheetNames : List String) (sheetData : Option SheetDataMap)
    (gdc gdf : Option String) (cfg : Option CfgMap) :
    Except ResolveErr (List (String × SheetConfigR)) :=
  match sheetNames with
  | [] => Except.ok []
  | s :: rest =>
      match resolveOne s sheetData gdc gdf cfg with
      | Except.error e => Except.error e
      | Except.ok sc =>
          match resolve_sheet_configs rest sheetData gdc gdf cfg with
          | Except.error e => Except.error e
          | Except.ok m => Except.ok ((s, sc) :: m)

/-! ### The sheet selector (`SheetConfigProcessor.process_sheet_selection`) -/

inductive SelErr where
  | invalidNames (filterType : String) (invalid : List String) (available : List String)
  | noSheets
  deriving DecidableEq, Repr

/-- Python truthiness of an optional list argument (`None` and `[]` skip the
filter). -/
def truthyList : Option (List String) → Bool
  | some (_ :: _) => true
  | _ => false

/-- `_validate_sheet_names`: the invalid entries, in input order. -/
def invalidSheetNames (names available : List String) : List String :=
  names.filter fun n => !available.contains n

/-- `_apply_config_filters` combined with the subsequent intersection: a sheet
is kept when absent from the config (include-by-default) or present with
`include = true`. -/
def keptByConfig (cfg : CfgMap) (s : String) : Bool :=
  match lookupCfg cfg s with
  | some e => e.included
  | none => true

/-- Python sets are modelled by duplicate-free lists: `set(l)`. -/
def pySet (l : List String) : List String := l.dedup

/-- Set intersection (membership-based; order of the left operand). -/
def pyInter (s other : List String) : List String := s.filter fun x => other.contains x

/-- Set difference. -/
def pyDiff (s other : List String) : List String := s.filter fun x => !other.contains x

/-- Code-point lexicographic comparison, as Python's `str` ordering. -/
def lexLeChars : List Char → List Char → Bool
  | [], _ => true
  | _ :: _, [] => false
  | a :: as, b :: bs =>
      if a.toNat < b.toNat then true
      else if b.toNat < a.toNat then false
      else lexLeChars as bs

def strLeB (a b : String) : Bool := lexLeChars a.data b.data

/-- The sort relation used for `sorted(...)`. -/
def StrLe (a b : String) : Prop := strLeB a b = true

instance : DecidableRel StrLe := fun a b => instDecidableEqBool (strLeB a b) true

/-- `sorted(list(s))`: Python's lexicographic sort. -/
def pySorted (s : List String) : List String := s.insertionSort StrLe

/-- `_apply_config_filters` combined with the subsequent intersection: a sheet
is kept when absent from the config (include-by-default) or present with
`include = true`. -/
def applyConfigFilters (selected : List String) (cfg : CfgMap) : List String :=
  selected.filter fun s => keptByConfig cfg s

/-- The `if include_sheets:` block: validate then intersect. -/
def applyIncludeFilter (selected available : List String)
    (includeSheets : Option (List String)) : Except SelErr (List String) :=
  if truthyList includeSheets then
    let inc := includeSheets.getD []
    let bad := invalidSheetNames inc available
    if bad.isEmpty then Except.ok (pyInter selected inc)
    else Except.error (SelErr.invalidNames "include" bad available)
  else Except.ok selected

/-- The `if exclude_sheets:` block: validate then subtract. -/
def applyExcludeFilter (selected available : List String)
    (excludeSheets : Option (List String)) : Except SelErr (List String) :=
  if truthyList excludeSheets then
    let exc := excludeSheets.getD []
    let bad := invalidSheetNames exc available
    if bad.isEmpty then Except.ok (pyDiff selected exc)
    else Except.error (SelErr.invalidNames "exclude" bad available)
  else Except.ok selected

/-- The `if sheet_config:` block. -/
def applyConfigStage (selected : List String) (cfg : Option CfgMap) : List String :=
  match cfg with
  | some c => pyInter selected (applyConfigFilters selected c)
  | none => selected

/-- Sorting, the empty-result check, and the return. -/
def finalStage (s2 : List String) (cfg : Option CfgMap) : Except SelErr (List String) :=
  let final := pySorted (applyConfigStage s2 cfg)
  if final.isEmpty then Except.error SelErr.noSheets
  else Except.ok final

/-- `SheetConfigProcessor.process_sheet_selection`. -/
def process_sheet_selection (available : List String)
    (includeSheets excludeSheets : Option (List String)) (cfg : Option CfgMap) :
    Except SelErr (List String) :=
  match applyIncludeFilter (pySet available) available includeSheets with
  | Except.error e => Except.error e
  | Except.ok s1 =>
      match applyExcludeFilter s1 available excludeSheets with
      | Except.error e => Except.error e
      | Except.ok s2 => finalStage s2 cfg

/-! ## Order facts about the sort relation -/

theorem lexLeChars_total (a : List Char) : ∀ b, lexLeChars a b = true ∨ lexLeChars b a = true := by
  induction a with
  | nil => intro b; left; rfl
  | cons x xs ih =>
    intro b
    cases b with
    | nil => right; rfl
    | cons y ys =>
      simp only [lexLeChars]
      rcases Nat.lt_trichotomy x.toNat y.toNat with h | h | h
      · left; rw [if_pos h]
      · have h1 : ¬x.toNat < y.toNat := by omega
        have h2 : ¬y.toNat < x.toNat := by omega
        rcases ih ys with hc | hc
        · left; rw [if_neg h1, if_neg h2]; exact hc
        · right; rw [if_neg h2, if_neg h1]; exact hc
      · right; rw [if_pos h]

theorem lexLeChars_head_le {x y : Char} {xs ys : List Char}
    (h : lexLeChars (x :: xs) (y :: ys) = true) : x.toNat ≤ y.toNat := by
  simp only [lexLeChars] at h
  by_cases h1 : x.toNat < y.toNat
  · omega
  · by_cases h2 : y.toNat < x.toNat
    · rw [if_neg h1, if_pos h2] at h; cases h
    · omega

theorem lexLeChars_trans (a : List Char) :
    ∀ b c, lexLeChars a b = true → lexLeChars b c = true → lexLeChars a c = true := by
  induction a with
  | nil => intro b c _ _; rfl
  | cons x xs ih =>
    intro b c hab hbc
    cases b with
    | nil => simp [lexLeChars] at hab
    | cons y ys =>
      cases c with
      | nil => simp [lexLeChars] at hbc
      | cons z zs =>
        have hxy := lexLeChars_head_le hab
        have hyz := lexLeChars_head_le hbc
        simp only [lexLeChars] at hab hbc ⊢
        rcases Nat.lt_trichotomy x.toNat z.toNat with h | h | h
        · rw [if_pos h]
        · have e1 : ¬x.toNat < y.toNat := by omega
          have e2 : ¬y.toNat < x.toNat := by omega
          have e3 : ¬y.toNat < z.toNat := by omega
          have e4 : ¬z.toNat < y.toNat := by omega
          have e5 : ¬x.toNat < z.toNat := by omega
          have e6 : ¬z.toNat < x.toNat := by omega
          rw [if_neg e1, if_neg e2] at hab
          rw [if_neg e3, if_neg e4] at hbc
          rw [if_neg e5, if_neg e6]
          exact ih ys zs hab hbc
        · omega

instance strLeTotal : IsTotal String StrLe :=
  ⟨fun a b => lexLeChars_total a.data b.data⟩

instance strLeTrans : IsTrans String StrLe :=
  ⟨fun a b c => lexLeChars_trans a.data b.data c.data⟩

/-! ## Selector lemmas -/

theorem pySorted_sorted (s : List String) : List.Sorted StrLe (pySorted s) :=
  List.sorted_insertionSort StrLe s

theorem pySorted_nodup {s : List String} (h : s.Nodup) : (pySorted s).Nodup :=
  ((List.perm_insertionSort StrLe s).nodup_iff).2 h

theorem mem_pySorted {s : List String} {x : String} : x ∈ pySorted s ↔ x ∈ s :=
  List.mem_insertionSort StrLe

theorem pyInter_subset (s t : List String) : pyInter s t ⊆ s :=
  List.filter_subset' _

theorem pyDiff_subset (s t : List String) : pyDiff s t ⊆ s :=
  List.filter_subset' _

theorem applyIncludeFilter_ok {s0 available : List String} {inc : Option (List String)}
    {s1 : List String} (h : applyIncludeFilter s0 available inc = Except.ok s1) :
    s1 = s0 ∨ ∃ l, s1 = pyInter s0 l := by
  simp only [applyIncludeFilter] at h
  split_ifs at h with h1 h2
  · cases h; exact Or.inr ⟨_, rfl⟩
  · cases h; exact Or.inl rfl

theorem applyExcludeFilter_ok {s1 available : List String} {exc : Option (List String)}
    {s2 : List String} (h : applyExcludeFilter s1 available exc = Except.ok s2) :
    s2 = s1 ∨ ∃ l, s2 = pyDiff s1 l := by
  simp only [applyExcludeFilter] at h
  split_ifs at h with h1 h2
  · cases h; exact Or.inr ⟨_, rfl⟩
  · cases h; exact Or.inl rfl

theorem applyConfigStage_subset (s2 : List String) (cfg : Option CfgMap) :
    applyConfigStage s2 cfg ⊆ s2 := by
  cases cfg with
  | none => exact fun _ h => h
  | some c => exact pyInter_subset _ _

theorem process_eq_of_include_error {available : List String}
    {inc exc : Option (List String)} {cfg : Option CfgMap} {e : SelErr}
    (h : applyIncludeFilter (pySet available) available inc = Except.error e) :
    process_sheet_selection available inc exc cfg = Except.error e := by
  unfold process_sheet_selection
  rw [h]

theorem process_eq_of_stages {available : List String}
    {inc exc : Option (List String)} {cfg : Option CfgMap} {s1 s2 : List String}
    (h1 : applyIncludeFilter (pySet available) available inc = Except.ok s1)
    (h2 : applyExcludeFilter s1 available exc = Except.ok s2) :
    process_sheet_selection available inc exc cfg = finalStage s2 cfg := by
  unfold process_sheet_selection
  rw [h1]
  show (match applyExcludeFilter s1 available exc with
    | Except.error e => Except.error e
    | Except.ok s2 => finalStage s2 cfg) = finalStage s2 cfg
  rw [h2]

theorem process_eq_of_exclude_error {available : List String}
    {inc exc : Option (List String)} {cfg : Option CfgMap} {s1 : List String} {e : SelErr}
    (h1 : applyIncludeFilter (pySet available) available inc = Except.ok s1)
    (h2 : applyExcludeFilter s1 available exc = Except.error e) :
    process_sheet_selection available inc exc cfg = Except.error e := by
  unfold process_sheet_selection
  rw [h1]
  show (match applyExcludeFilter s1 available exc with
    | Except.error e => Except.error e
    | Except.ok s2 => finalStage s2 cfg) = Except.error e
  rw [h2]

theorem process_ok_shape {available : List String} {inc exc : Option (List String)}
    {cfg : Option CfgMap} {l : List String}
    (h : process_sheet_selection available inc exc cfg = Except.ok l) :
    ∃ s3, l = pySorted s3 ∧ s3.Nodup ∧ s3 ⊆ available := by
  cases h1 : applyIncludeFilter (pySet available) available inc with
  | error e => rw [process_eq_of_include_error h1] at h; exact Except.noConfusion h
  | ok s1 =>
    cases h2 : applyExcludeFilter s1 available exc with
    | error e => rw [process_eq_of_exclude_error h1 h2] at h; exact Except.noConfusion h
    | ok s2 =>
      rw [process_eq_of_stages h1 h2] at h
      simp only [finalStage] at h
      split_ifs at h with hEmpty
      cases h
      refine ⟨applyConfigStage s2 cfg, rfl, ?_, ?_⟩
      · have hs1 : s1.Nodup := by
          rcases applyIncludeFilter_ok h1 with rfl | ⟨l', rfl⟩
          · exact List.nodup_dedup available
          · exact List.Nodup.filter _ (List.nodup_dedup available)
        have hs2 : s2.Nodup := by
          rcases applyExcludeFilter_ok h2 with rfl | ⟨l', rfl⟩
          · exact hs1
          · exact List.Nodup.filter _ hs1
        cases cfg with
        | none => exact hs2
        | some c => exact List.Nodup.filter _ hs2
      · have hs1 : s1 ⊆ available := by
          rcases applyIncludeFilter_ok h1 with rfl | ⟨l', rfl⟩
          · exact List.dedup_subset available
          · exact fun x hx => List.dedup_subset available (pyInter_subset _ _ hx)
        have hs2 : s2 ⊆ available := by
          rcases applyExcludeFilter_ok h2 with rfl | ⟨l', rfl⟩
          · exact hs1
          · exact fun x hx => hs1 (pyDiff_subset _ _ hx)
        exact fun x hx => hs2 (applyConfigStage_subset _ _ hx)

theorem contains_iff_memS {l : List String} {x : String} : l.contains x = true ↔ x ∈ l :=
  List.elem_iff

/-- C8, as written, fails on the empty include list: `include_sheets=[]` is
falsy in Python, so the include filter is skipped entirely and every available
sheet is returned, not `sorted(A ∩ ∅) = []`. -/
theorem c8_counterexample :
    process_sheet_selection ["Alpha"] (some []) none none = Except.ok ["Alpha"] ∧
    pySorted (pyInter (pySet ["Alpha"]) []) = [] ∧
    (["Alpha"] : List String) ≠ [] := by
  refine ⟨by decide, by decide, by decide⟩

/-- C8 (amended): every successful selection is sorted, duplicate-free and a
subset of `available`; for a *nonempty* `I ⊆ A` with no exclude/config filter
the result is exactly `sorted(A ∩ I)`; and an include entry outside `A` makes
the call fail naming the invalid entries and listing the available sheets.
(An empty include list is falsy and is treated as "no include filter".) -/
theorem c8_selector_determinism_and_composition :
    (∀ (available : List String) (inc exc : Option (List String)) (cfg : Option CfgMap)
        (l : List String),
      process_sheet_selection available inc exc cfg = Except.ok l →
        List.Sorted StrLe l ∧ l.Nodup ∧ ∀ x ∈ l, x ∈ available) ∧
    (∀ (A I : List String), I ≠ [] → (∀ x ∈ I, x ∈ A) →
      process_sheet_selection A (some I) none none =
        Except.ok (pySorted (pyInter (pySet A) I))) ∧
    (∀ (A I : List String) (x : String), x ∈ I → x ∉ A →
      process_sheet_selection A (some I) none none =
        Except.error (SelErr.invalidNames "include" (invalidSheetNames I A) A) ∧
      invalidSheetNames I A ≠ []) := by
  refine ⟨?_, ?_, ?_⟩
  · intro available inc exc cfg l h
    obtain ⟨s3, rfl, hnd, hsub⟩ := process_ok_shape h
    exact ⟨pySorted_sorted s3, pySorted_nodup hnd,
      fun x hx => hsub (mem_pySorted.1 hx)⟩
  · intro A I hne hsub
    cases I with
    | nil => exact absurd rfl hne
    | cons i is =>
      have hbad : invalidSheetNames (i :: is) A = [] := by
        apply List.filter_eq_nil_iff.2
        intro a ha
        rw [contains_iff_memS.2 (hsub a ha)]
        simp
      have hIncl : applyIncludeFilter (pySet A) A (some (i :: is)) =
          Except.ok (pyInter (pySet A) (i :: is)) := by
        simp only [applyIncludeFilter]
        rw [if_pos (show truthyList (some (i :: is)) = true from rfl)]
        simp only [Option.getD_some, hbad]
        rfl
      have hmem : i ∈ pyInter (pySet A) (i :: is) := by
        apply List.mem_filter.2
        exact ⟨List.mem_dedup.2 (hsub i (by simp)), contains_iff_memS.2 (by simp)⟩
      have hfin : (pySorted (pyInter (pySet A) (i :: is))).isEmpty = false := by
        have hm : i ∈ pySorted (pyInter (pySet A) (i :: is)) := mem_pySorted.2 hmem
        cases hq : pySorted (pyInter (pySet A) (i :: is)) with
        | nil => rw [hq] at hm; cases hm
        | cons a as => rfl
      have hexc : applyExcludeFilter (pyInter (pySet A) (i :: is)) A none =
          Except.ok (pyInter (pySet A) (i :: is)) := rfl
      rw [process_eq_of_stages hIncl hexc]
      simp only [finalStage]
      have hstage : applyConfigStage (pyInter (pySet A) (i :: is)) none =
          pyInter (pySet A) (i :: is) := rfl
      rw [hstage]
      rw [if_neg (by rw [hfin]; simp)]
  · intro A I x hxI hxA
    have hne : invalidSheetNames I A ≠ [] := by
      intro hnil
      have h0 := List.filter_eq_nil_iff.1 hnil x hxI
      cases hc : A.contains x with
      | true => exact hxA (contains_iff_memS.1 hc)
      | false => exact h0 (by rw [hc]; rfl)
    refine ⟨?_, hne⟩
    cases I with
    | nil => cases hxI
    | cons i is =>
      have hbadne : (invalidSheetNames (i :: is) A).isEmpty = false := by
        cases hq : invalidSheetNames (i :: is) A with
        | nil => exact absurd hq hne
        | cons a as => rfl
      have hIncl : applyIncludeFilter (pySet A) A (some (i :: is)) =
          Except.error (SelErr.invalidNames "include" (invalidSheetNames (i :: is) A) A) := by
        simp only [applyIncludeFilter]
        rw [if_pos (show truthyList (some (i :: is)) = true from rfl)]
        simp only [Option.getD_some]
        rw [if_neg (by rw [hbadne]; simp)]
      exact process_eq_of_include_error hIncl

/-- Witness for C8: a concrete instantiation of each part. -/
theorem c8_witness :
    (List.Sorted StrLe ["A", "C"] ∧ (["A", "C"] : List String).Nodup ∧
      ∀ x ∈ (["A", "C"] : List String), x ∈ (["C", "B", "A"] : List String)) ∧
    process_sheet_selection ["C", "B", "A"] (some ["A", "C"]) none none =
      Except.ok (pySorted (pyInter (pySet ["C", "B", "A"]) ["A", "C"])) := by
  constructor
  · exact (c8_selector_determinism_and_composition.1 ["C", "B", "A"]
      (some ["A", "C"]) none none ["A", "C"] (by decide))
  · exact (c8_selector_determinism_and_composition.2.1 ["C", "B", "A"] ["A", "C"]
      (by decide) (by decide))

/-- C9: config keys are never validated against the available sheets — a
config whose keys are all absent leaves the selection unchanged. -/
theorem c9_config_keys_not_validated :
    ∀ (available : List String) (inc exc : Option (List String)) (cfg : CfgMap),
      (∀ p ∈ (cfg : List (String × SheetConfigR)), p.1 ∉ available) →
      process_sheet_selection available inc exc (some cfg) =
        process_sheet_selection available inc exc none := by
  intro available inc exc cfg hkeys
  cases h1 : applyIncludeFilter (pySet available) available inc with
  | error e => rw [process_eq_of_include_error h1, process_eq_of_include_error h1]
  | ok s1 =>
    cases h2 : applyExcludeFilter s1 available exc with
    | error e => rw [process_eq_of_exclude_error h1 h2, process_eq_of_exclude_error h1 h2]
    | ok s2 =>
      have hs2 : s2 ⊆ available := by
        have hs1 : s1 ⊆ available := by
          rcases applyIncludeFilter_ok h1 with rfl | ⟨l', rfl⟩
          · exact List.dedup_subset available
          · exact fun x hx => List.dedup_subset available (pyInter_subset _ _ hx)
        rcases applyExcludeFilter_ok h2 with rfl | ⟨l', rfl⟩
        · exact hs1
        · exact fun x hx => hs1 (pyDiff_subset _ _ hx)
      have hstage : applyConfigStage s2 (some cfg) = s2 := by
        simp only [applyConfigStage, pyInter]
        apply List.filter_eq_self.2
        intro a ha
        apply contains_iff_memS.2
        apply List.mem_filter.2
        refine ⟨ha, ?_⟩
        have hfind : (cfg : List (String × SheetConfigR)).find? (fun p => p.1 == a) = none := by
          apply List.find?_eq_none.2
          intro p hp
          simp only [beq_iff_eq]
          intro hpa
          exact hkeys p hp (hpa ▸ hs2 ha)
        simp only [keptByConfig, lookupCfg, hfind, Option.map_none']
      rw [process_eq_of_stages h1 h2, process_eq_of_stages h1 h2]
      simp only [finalStage]
      rw [hstage]
      rfl

/-- Witness for C9 at a concrete config whose single key is unavailable. -/
theorem c9_witness :
    process_sheet_selection ["B", "A"] none none
        (some [("Z", { included := false : SheetConfigR })]) =
      process_sheet_selection ["B", "A"] none none none :=
  c9_config_keys_not_validated ["B", "A"] none none
    [("Z", { included := false : SheetConfigR })] (by decide)

/-! ## Resolver lemmas -/

theorem resolveOne_missing {s : String} {d : Option SheetDataMap}
    {gdc gdf : Option String} {cfg : Option CfgMap}
    (h : isTruthy (mergedColumn gdc cfg s) = false) :
    resolveOne s d gdc gdf cfg = Except.error (ResolveErr.missingDateColumn s) := by
  simp [resolveOne, h]

theorem resolve_error_append {pre rest : List String} {d : Option SheetDataMap}
    {gdc gdf : Option String} {cfg : Option CfgMap} {e : ResolveErr}
    (hpre : ∀ p ∈ pre, ∃ sc, resolveOne p d gdc gdf cfg = Except.ok sc)
    (h : resolve_sheet_configs rest d gdc gdf cfg = Except.error e) :
    resolve_sheet_configs (pre ++ rest) d gdc gdf cfg = Except.error e := by
  induction pre with
  | nil => exact h
  | cons p ps ih =>
    obtain ⟨sc, hsc⟩ := hpre p (by simp)
    have hrec := ih fun q hq => hpre q (by simp [hq])
    show resolve_sheet_configs (p :: (ps ++ rest)) d gdc gdf cfg = Except.error e
    unfold resolve_sheet_configs
    rw [hsc]
    show (match resolve_sheet_configs (ps ++ rest) d gdc gdf cfg with
      | Except.error e => Except.error e
      | Except.ok m => Except.ok ((p, sc) :: m)) = Except.error e
    rw [hrec]

/-- C7, as written, can fail on the error *kind*: when an earlier sheet in the
list fails first (here sheet "A"'s auto-detection finds inconsistent formats),
the whole call fails with that earlier error, not with `MissingDateColumn`
naming the column-less sheet "B" — even though "B" has no date column from
either layer. -/
theorem c7_counterexample :
    isTruthy (mergedColumn none (some [("A", { date_column := some "Date" : SheetConfigR })]) "B") = false ∧
    resolve_sheet_configs ["A", "B"]
        (some [("A", ⟨[("Date", [some "2024-01-15", some "02/20/2024"])]⟩)]) none none
        (some [("A", { date_column := some "Date" : SheetConfigR })]) =
      Except.error (ResolveErr.detection (DetectErr.inconsistent
        { column := "Date", format := "%Y-%m-%d", total := 1,
          examples := [(1, "02/20/2024")], truncated := false })) ∧
    (Except.error (ResolveErr.detection (DetectErr.inconsistent
        { column := "Date", format := "%Y-%m-%d", total := 1,
          examples := [(1, "02/20/2024")], truncated := false })) :
      Except ResolveErr (List (String × SheetConfigR))) ≠
      Except.error (ResolveErr.missingDateColumn "B") := by
  exact ⟨by decide, by decide, by decide⟩

/-- C7 (amended): if resolution reaches a sheet whose date column is supplied
by neither the global arguments nor the per-sheet config (every sheet before
it resolves successfully), the whole call fails with `MissingDateColumn`
naming that sheet — the error value carries no partial result map. -/
theorem c7_missing_date_column :
    ∀ (pre : List String) (s : String) (post : List String) (d : Option SheetDataMap)
      (gdc gdf : Option String) (cfg : Option CfgMap),
      (∀ p ∈ pre, ∃ sc, resolveOne p d gdc gdf cfg = Except.ok sc) →
      isTruthy (mergedColumn gdc cfg s) = false →
      resolve_sheet_configs (pre ++ s :: post) d gdc gdf cfg =
        Except.error (ResolveErr.missingDateColumn s) := by
  intro pre s post d gdc gdf cfg hpre hcol
  apply resolve_error_append hpre
  unfold resolve_sheet_configs
  rw [resolveOne_missing hcol]

/-- Witness for C7 at a concrete two-sheet run: "A" resolves from its config
entry, "B" has no date column anywhere, the call errors naming "B". -/
theorem c7_witness :
    isTruthy (mergedColumn none
        (some [("A", { date_column := some "Date", date_format := some "%Y-%m-%d" : SheetConfigR })]) "B") = false ∧
    resolve_sheet_configs (["A"] ++ "B" :: []) none none none
        (some [("A", { date_column := some "Date", date_format := some "%Y-%m-%d" : SheetConfigR })]) =
      Except.error (ResolveErr.missingDateColumn "B") := by
  refine ⟨by decide, ?_⟩
  apply c7_missing_date_column
  · intro p hp
    rw [List.mem_singleton] at hp
    subst hp
    exact ⟨{ date_column := some "Date", date_format := some "%Y-%m-%d", included := true },
      by decide⟩
  · decide

/-- C6: per-sheet config fields override the global seed field-by-field; a
field the per-sheet entry leaves unset keeps the (truthiness-normalised)
global value; sheets absent from the config keep the global values.  The
final conjunct is the claim's concrete example. -/
theorem c6_per_sheet_override :
    (∀ (gdc : Option String) (cfg : CfgMap) (s : String) (e : SheetConfigR),
      lookupCfg cfg s = some e → isTruthy e.date_column = true →
      mergedColumn gdc (some cfg) s = e.date_column) ∧
    (∀ (gdc : Option String) (cfg : CfgMap) (s : String) (e : SheetConfigR),
      lookupCfg cfg s = some e → e.date_column = none →
      mergedColumn gdc (some cfg) s = normTruthy gdc) ∧
    (∀ (gdc : Option String) (cfg : CfgMap) (s : String),
      lookupCfg cfg s = none → mergedColumn gdc (some cfg) s = normTruthy gdc) ∧
    (∀ (gdf : Option String) (cfg : CfgMap) (s : String) (e : SheetConfigR),
      lookupCfg cfg s = some e → isTruthy e.date_format = true →
      mergedFormat gdf (some cfg) s = e.date_format) ∧
    (∀ (gdf : Option String) (cfg : CfgMap) (s : String) (e : SheetConfigR),
      lookupCfg cfg s = some e → e.date_format = none →
      mergedFormat gdf (some cfg) s = normTruthy gdf) ∧
    (∀ (gdf : Option String) (cfg : CfgMap) (s : String),
      lookupCfg cfg s = none → mergedFormat gdf (some cfg) s = normTruthy gdf) ∧
    resolve_sheet_configs ["S", "T"] none (some "Date") none
        (some [("S", { date_column := some "Transaction Date" : SheetConfigR })]) =
      Except.ok [("S", { date_column := some "Transaction Date", date_format := none, included := true }),
                 ("T", { date_column := some "Date", date_format := none, included := true })] := by
  refine ⟨?_, ?_, ?_, ?_, ?_, ?_, by decide⟩
  · intro gdc cfg s e hl ht
    simp [mergedColumn, hl, ht]
  · intro gdc cfg s e hl hdc
    simp [mergedColumn, hl, hdc, isTruthy]
  · intro gdc cfg s hl
    simp [mergedColumn, hl]
  · intro gdf cfg s e hl ht
    simp [mergedFormat, hl, ht]
  · intro gdf cfg s e hl hdf
    simp [mergedFormat, hl, hdf, isTruthy]
  · intro gdf cfg s hl
    simp [mergedFormat, hl]

/-- Witness for C6 at the claim's concrete override. -/
theorem c6_witness :
    lookupCfg [("S", { date_column := some "Transaction Date" : SheetConfigR })] "S" =
      some { date_column := some "Transaction Date" : SheetConfigR } ∧
    isTruthy (some "Transaction Date") = true ∧
    mergedColumn (some "Date")
        (some [("S", { date_column := some "Transaction Date" : SheetConfigR })]) "S" =
      some "Transaction Date" :=
  ⟨by decide, by decide,
    c6_per_sheet_override.1 (some "Date")
      [("S", { date_column := some "Transaction Date" : SheetConfigR })] "S"
      { date_column := some "Transaction Date" : SheetConfigR } (by decide) (by decide)⟩

/-- C10: once a date format is resolved from the global arguments or the
per-sheet config, the detector is never invoked and the sheet's table is never
read — the result of resolving that sheet is identical for every
`sheet_data`. -/
theorem c10_no_detection_when_format_given :
    ∀ (s : String) (d : Option SheetDataMap) (gdc gdf : Option String)
      (cfg : Option CfgMap),
      isTruthy (mergedFormat gdf cfg s) = true →
      resolveOne s d gdc gdf cfg = resolveOne s none gdc gdf cfg := by
  intro s d gdc gdf cfg h
  simp only [resolveOne, h, Bool.not_true]
  rfl

/-- Witness for C10: with a global format, a sheet whose table lacks the date
column entirely still resolves, identically to having no table at all. -/
theorem c10_witness :
    isTruthy (mergedFormat (some "%Y-%m-%d") none "S") = true ∧
    resolveOne "S" (some [("S", ⟨[("Other", [some "zzz"])]⟩)])
        (some "Date") (some "%Y-%m-%d") none =
      resolveOne "S" none (some "Date") (some "%Y-%m-%d") none ∧
    resolveOne "S" (some [("S", ⟨[("Other", [some "zzz"])]⟩)])
        (some "Date") (some "%Y-%m-%d") none =
      Except.ok { date_column := some "Date", date_format := some "%Y-%m-%d", included := true } :=
  ⟨by decide,
    c10_no_detection_when_format_given "S" (some [("S", ⟨[("Other", [some "zzz"])]⟩)])
      (some "Date") (some "%Y-%m-%d") none (by decide),
    by decide⟩

/-- C5: when the first non-null value matches no catalog pattern, the
detector returns the `None` sentinel rather than an error, and the resolver
constructs the sheet's config with `date_format` left unset. -/
theorem c5_undetected_is_not_error :
    ∀ (frame : PyFrame) (col : String) (cells : List (Option String))
      (i0 : Nat) (v0 : String) (rest : List (Nat × String)) (s : String),
      lookupCol frame col = some cells →
      dropna cells = (i0, v0) :: rest →
      detectFromValueS (pyStripS v0) = none →
      col.isEmpty = false →
      (pyStripS col).isEmpty = false →
      detect_date_format frame col = Except.ok none ∧
      resolveOne s (some [(s, frame)]) (some col) none none =
        Except.ok { date_column := some (pyStripS col), date_format := none,
                    included := true } := by
  intro frame col cells i0 v0 rest s hlook hdrop hdet hcolE hstripE
  have hdd : detect_date_format frame col = Except.ok none := by
    unfold detect_date_format
    rw [hlook]
    show (match dropna cells with
      | [] => Except.error (DetectErr.noValidData col)
      | (i0, v0) :: rest =>
          match detectFromValueS (pyStripS v0) with
          | none => Except.ok none
          | some fmt =>
              match validateConsistency (((i0, v0) :: rest).map Prod.snd)
                  (((i0, v0) :: rest).map Prod.fst) fmt col with
              | some info => Except.error (DetectErr.inconsistent info)
              | none => Except.ok (some fmt)) = Except.ok none
    rw [hdrop]
    show (match detectFromValueS (pyStripS v0) with
      | none => Except.ok none
      | some fmt =>
          match validateConsistency (((i0, v0) :: rest).map Prod.snd)
              (((i0, v0) :: rest).map Prod.fst) fmt col with
          | some info => Except.error (DetectErr.inconsistent info)
          | none => Except.ok (some fmt)) = Except.ok none
    rw [hdet]
  refine ⟨hdd, ?_⟩
  have hmc : mergedColumn (some col) none s = some col := by
    simp [mergedColumn, normTruthy, isTruthy, hcolE]
  have htc : isTruthy (some col) = true := by simp [isTruthy, hcolE]
  have hld : lookupData [(s, frame)] s = some frame := by
    simp [lookupData, List.find?]
  simp only [resolveOne, hmc, mergedFormat, normTruthy, isTruthy, hcolE,
    Option.getD_some, Bool.not_false, hld, hdd, mkSheetConfig, mkSheetConfigFmt,
    hstripE]
  simp

/-- Witness for C5 at the spec's `["not-a-date"]` column. -/
theorem c5_witness :
    detect_date_format ⟨[("Date", [some "not-a-date"])]⟩ "Date" = Except.ok none ∧
    resolveOne "S" (some [("S", ⟨[("Date", [some "not-a-date"])]⟩)])
        (some "Date") none none =
      Except.ok { date_column := some (pyStripS "Date"), date_format := none,
                  included := true } :=
  c5_undetected_is_not_error ⟨[("Date", [some "not-a-date"])]⟩ "Date"
    [some "not-a-date"] 0 "not-a-date" [] "S"
    (by decide) (by decide) (by decide) (by decide) (by decide)

/-- C4: the end-to-end example: `Date = ["01/15/2024","02/20/2024","03/10/2024"]`,
global column `"Date"`, no explicit format resolves to `%m/%d/%Y`.  The first
two conjuncts exhibit the fall-through: the earlier catalog entry `%d/%m/%Y`
regex-matches the first value but its strict parse fails (month 15). -/
theorem c4_end_to_end_example :
    matchToks [Tok.digits 1 2, Tok.lit '/', Tok.digits 1 2, Tok.lit '/', Tok.digits 4 4]
        "01/15/2024".data = true ∧
    parseOk "%d/%m/%Y" "01/15/2024".data = false ∧
    resolve_sheet_configs ["S"]
        (some [("S", ⟨[("Date", [some "01/15/2024", some "02/20/2024", some "03/10/2024"])]⟩)])
        (some "Date") none none =
      Except.ok [("S", { date_column := some "Date", date_format := some "%m/%d/%Y", included := true })] :=
  ⟨by decide, by decide, by decide⟩

/-- A digit character is never a slash. -/
theorem digit_beq_slash {c : Char} (h : isDigitCh c = true) : (c == '/') = false := by
  cases hc : c == '/' with
  | false => rfl
  | true =>
    have : c = '/' := eq_of_beq hc
    subst this
    exact absurd h (by decide)

/-- The three ISO catalog entries all start with `\d{4}` followed by a
non-digit, so no `DD/...`-shaped value can match them. -/
theorem matchToks_d4_on_two_digits {a b : Char} {ts : List Tok} {rest : List Char}
    (ha : isDigitCh a = true) (hb : isDigitCh b = true) :
    matchToks (Tok.digits 4 4 :: ts) (a :: b :: '/' :: rest) = false := by
  simp [matchToks, digitsThen, List.range', takeDigits, ha, hb,
    (by decide : isDigitCh '/' = false)]

/-- C1, as written, is false: the catalog lists the European `%d/%m/%Y`
*before* the US `%m/%d/%Y` ("Common Worldwide formats" precede "Common US
formats"), so the ambiguous `"02/03/2024"` detects as `%d/%m/%Y`. -/
theorem c1_counterexample :
    (formatPatterns.map Prod.fst).findIdx (· == "%d/%m/%Y") <
      (formatPatterns.map Prod.fst).findIdx (· == "%m/%d/%Y") ∧
    detectFromValueS "02/03/2024" = some "%d/%m/%Y" ∧
    some "%d/%m/%Y" ≠ some "%m/%d/%Y" :=
  ⟨by decide, by decide, by decide⟩

/-- C1 (amended): `%d/%m/%Y` is listed before `%m/%d/%Y`, so detection on any
`DD/DD/YYYY`-shaped value that strictly parses under both formats returns the
European `%d/%m/%Y`. -/
theorem c1_catalog_order_tiebreak :
    ∀ (a b c d e1 e2 e3 e4 : Char),
      isDigitCh a = true → isDigitCh b = true → isDigitCh c = true →
      isDigitCh d = true → isDigitCh e1 = true → isDigitCh e2 = true →
      isDigitCh e3 = true → isDigitCh e4 = true →
      parseOk "%d/%m/%Y" [a, b, '/', c, d, '/', e1, e2, e3, e4] = true →
      parseOk "%m/%d/%Y" [a, b, '/', c, d, '/', e1, e2, e3, e4] = true →
      detectFromValue [a, b, '/', c, d, '/', e1, e2, e3, e4] = some "%d/%m/%Y" := by
  intro a b c d e1 e2 e3 e4 ha hb hc hd he1 he2 he3 he4 hpd _hpm
  have hb' := digit_beq_slash hb
  have hd' := digit_beq_slash hd
  have hm1 := @matchToks_d4_on_two_digits a b [Tok.lit '-', Tok.digits 1 2, Tok.lit '-',
    Tok.digits 1 2] [c, d, '/', e1, e2, e3, e4] ha hb
  have hm2 := @matchToks_d4_on_two_digits a b [Tok.lit '-', Tok.digits 1 2, Tok.lit '-',
    Tok.digits 1 2, Tok.lit ' ', Tok.digits 1 2, Tok.lit ':', Tok.digits 2 2, Tok.lit ':',
    Tok.digits 2 2] [c, d, '/', e1, e2, e3, e4] ha hb
  have hm3 := @matchToks_d4_on_two_digits a b [Tok.lit '-', Tok.digits 1 2, Tok.lit '-',
    Tok.digits 1 2, Tok.lit ' ', Tok.digits 1 2, Tok.lit ':', Tok.digits 2 2]
    [c, d, '/', e1, e2, e3, e4] ha hb
  have hm4 : matchToks [Tok.digits 1 2, Tok.lit '/', Tok.digits 1 2, Tok.lit '/',
      Tok.digits 4 4] [a, b, '/', c, d, '/', e1, e2, e3, e4] = true := by
    simp [matchToks, digitsThen, List.range', takeDigits, ha, hb, hc, hd,
      he1, he2, he3, he4, hb', hd', (by decide : ('/' == '/') = true),
      (by decide : isDigitCh '/' = false)]
  simp only [detectFromValue, formatPatterns, detectLoop, hm1, hm2, hm3, hm4, hpd,
    Bool.false_and, Bool.true_and, if_false, if_true, reduceIte]
  simp

/-- Witness for C1 at `"02/03/2024"`. -/
theorem c1_witness :
    parseOk "%d/%m/%Y" ['0', '2', '/', '0', '3', '/', '2', '0', '2', '4'] = true ∧
    parseOk "%m/%d/%Y" ['0', '2', '/', '0', '3', '/', '2', '0', '2', '4'] = true ∧
    detectFromValue ['0', '2', '/', '0', '3', '/', '2', '0', '2', '4'] = some "%d/%m/%Y" :=
  ⟨by decide, by decide,
    c1_catalog_order_tiebreak '0' '2' '0' '3' '2' '0' '2' '4'
      (by decide) (by decide) (by decide) (by decide) (by decide) (by decide)
      (by decide) (by decide) (by decide) (by decide)⟩

/-- C3 behaviour at a parse-only mismatch: the collected example list holds
the mismatching row `(1, "2024-02-30")`, but the reported total is `0` and no
truncation note is attached, because `_raise_consistency_error` recounts
mismatches with the regex test only — a strict-parse failure is collected as a
mismatch but never counted.  The second conjunct shows seven such mismatches
(more than 5) still reporting total 0 and no truncation note. -/
theorem c3_total_counts_regex_only :
    detect_date_format ⟨[("Date", [some "2024-01-15", some "2024-02-30"])]⟩ "Date" =
      Except.error (DetectErr.inconsistent
        { column := "Date", format := "%Y-%m-%d", total := 0,
          examples := [(1, "2024-02-30")], truncated := false }) ∧
    detect_date_format ⟨[("Date",
        [some "2024-01-15", some "2024-02-30", some "2024-02-31", some "2024-04-31",
         some "2024-06-31", some "2024-09-31", some "2024-11-31", some "2023-02-29"])]⟩ "Date" =
      Except.error (DetectErr.inconsistent
        { column := "Date", format := "%Y-%m-%d", total := 0,
          examples := [(1, "2024-02-30"), (2, "2024-02-31"), (3, "2024-04-31"),
                       (4, "2024-06-31"), (5, "2024-09-31")], truncated := false }) :=
  ⟨by decide, by decide⟩

/-! ## Generated values (C2)

The spec's "a value generated to match `format` exactly" is modelled as
`strftime` of the format at a datetime: zero-padded numeric directives
(`%Y` `%m` `%d` `%H` `%M` `%S`, `%y` as `year % 100`) and capitalised
full/abbreviated month names.  `ValidDT` restricts to calendar-valid
datetimes whose year (1678-2261) keeps every rendered date inside the
`pd.Timestamp` range, so that the strict parse cannot fail on bounds. -/

structure DT where
  year : Nat
  mon : Nat
  day : Nat
  hour : Nat
  minute : Nat
  sec : Nat
  deriving DecidableEq, Repr

def ValidDT (dt : DT) : Prop :=
  1678 ≤ dt.year ∧ dt.year ≤ 2261 ∧ 1 ≤ dt.mon ∧ dt.mon ≤ 12 ∧
  1 ≤ dt.day ∧ dt.day ≤ daysInMonth dt.year dt.mon ∧
  dt.hour ≤ 23 ∧ dt.minute ≤ 59 ∧ dt.sec ≤ 59

instance : DecidablePred ValidDT := fun dt => by unfold ValidDT; infer_instance

def pad2 (n : Nat) : List Char := [dch (n / 10 % 10), dch (n % 10)]

def pad4 (n : Nat) : List Char :=
  [dch (n / 1000 % 10), dch (n / 100 % 10), dch (n / 10 % 10), dch (n % 10)]

def monthNameU (m : Nat) : List Char :=
  (match m with
   | 1 => "January" | 2 => "February" | 3 => "March" | 4 => "April"
   | 5 => "May" | 6 => "June" | 7 => "July" | 8 => "August"
   | 9 => "September" | 10 => "October" | 11 => "November" | 12 => "December"
   | _ => "").data

def monthAbbrU (m : Nat) : List Char :=
  (match m with
   | 1 => "Jan" | 2 => "Feb" | 3 => "Mar" | 4 => "Apr" | 5 => "May" | 6 => "Jun"
   | 7 => "Jul" | 8 => "Aug" | 9 => "Sep" | 10 => "Oct" | 11 => "Nov" | 12 => "Dec"
   | _ => "").data

def renderDir (dt : DT) : Dir → List Char
  | Dir.dY => pad4 dt.year
  | Dir.dy2 => pad2 (dt.year % 100)
  | Dir.dm => pad2 dt.mon
  | Dir.dd => pad2 dt.day
  | Dir.dH => pad2 dt.hour
  | Dir.dMin => pad2 dt.minute
  | Dir.dS => pad2 dt.sec
  | Dir.dB => monthNameU dt.mon
  | Dir.db => monthAbbrU dt.mon
  | Dir.lit c => [c]
  | Dir.ws => [' ']

def renderDirs (ds : List Dir) (dt : DT) : List Char :=
  match ds with
  | [] => []
  | d :: rest => renderDir dt d ++ renderDirs rest dt

/-- `strftime(fmt)` at `dt`: the value "generated to conform exactly" to the
format. -/
def genValue (fmt : String) (dt : DT) : List Char :=
  match tokenizeFormat fmt.data with
  | some ds => renderDirs ds dt
  | none => []

/-! ## Digit-character and pad lemmas -/

theorem dch_isDigit {k : Nat} (h : k ≤ 9) : isDigitCh (dch k) = true := by
  interval_cases k <;> decide

theorem cv_dch {k : Nat} (h : k ≤ 9) : cv (dch k) = k := by
  interval_cases k <;> decide

theorem dch_nonspace {k : Nat} (h : k ≤ 9) : isSpaceCh (dch k) = false := by
  interval_cases k <;> decide

theorem pad2_all_digits (n : Nat) : (pad2 n).all isDigitCh = true := by
  simp [pad2, dch_isDigit (show n / 10 % 10 ≤ 9 by omega),
    dch_isDigit (show n % 10 ≤ 9 by omega)]

theorem pad4_all_digits (n : Nat) : (pad4 n).all isDigitCh = true := by
  simp [pad4, dch_isDigit (show n / 1000 % 10 ≤ 9 by omega),
    dch_isDigit (show n / 100 % 10 ≤ 9 by omega),
    dch_isDigit (show n / 10 % 10 ≤ 9 by omega),
    dch_isDigit (show n % 10 ≤ 9 by omega)]

/-! ## Regex-side composition lemmas -/

theorem takeDigits_exact {ds : List Char} (hdig : ds.all isDigitCh = true)
    (cs : List Char) : takeDigits ds.length (ds ++ cs) = some cs := by
  induction ds with
  | nil => rfl
  | cons x xs ih =>
    simp only [List.all_cons, Bool.and_eq_true] at hdig
    simp [takeDigits, hdig.1, ih hdig.2]

theorem match_digits_step {lo hi : Nat} {ts : List Tok} {ds cs : List Char}
    (hlen1 : lo ≤ ds.length) (hlen2 : ds.length ≤ hi)
    (hdig : ds.all isDigitCh = true) (h : matchToks ts cs = true) :
    matchToks (Tok.digits lo hi :: ts) (ds ++ cs) = true := by
  simp only [matchToks, digitsThen]
  rw [List.any_eq_true]
  refine ⟨ds.length, ?_, ?_⟩
  · rw [List.mem_range']
    exact ⟨ds.length - lo, by omega, by omega⟩
  · rw [takeDigits_exact hdig]
    exact h

theorem match_pad4 {ts : List Tok} {cs : List Char} (n : Nat)
    (h : matchToks ts cs = true) :
    matchToks (Tok.digits 4 4 :: ts) (pad4 n ++ cs) = true :=
  match_digits_step (by simp [pad4]) (by simp [pad4]) (pad4_all_digits n) h

theorem match_pad2_12 {ts : List Tok} {cs : List Char} (n : Nat)
    (h : matchToks ts cs = true) :
    matchToks (Tok.digits 1 2 :: ts) (pad2 n ++ cs) = true :=
  match_digits_step (by simp [pad2]) (by simp [pad2]) (pad2_all_digits n) h

theorem match_pad2_22 {ts : List Tok} {cs : List Char} (n : Nat)
    (h : matchToks ts cs = true) :
    matchToks (Tok.digits 2 2 :: ts) (pad2 n ++ cs) = true :=
  match_digits_step (by simp [pad2]) (by simp [pad2]) (pad2_all_digits n) h

theorem match_lit_step {c : Char} {ts : List Tok} {cs : List Char}
    (h : matchToks ts cs = true) :
    matchToks (Tok.lit c :: ts) (c :: cs) = true := by
  simp [matchToks, h]

theorem match_alpha_step {ts : List Tok} {cs : List Char} :
    ∀ {as : List Char}, as ≠ [] → as.all isAlphaCh = true →
      matchToks ts cs = true → matchToks (Tok.alpha :: ts) (as ++ cs) = true := by
  intro as
  induction as with
  | nil => intro h; exact absurd rfl h
  | cons x xs ih =>
    intro _ hal h
    simp only [List.all_cons, Bool.and_eq_true] at hal
    cases xs with
    | nil =>
      simp only [List.cons_append, List.nil_append, matchToks, alphaThen, alphaGo,
        hal.1, Bool.true_and]
      show (matchToks ts cs || alphaGo (matchToks ts) cs) = true
      rw [h, Bool.true_or]
    | cons y ys =>
      have hrec := ih (by simp) hal.2 h
      simp only [matchToks, alphaThen, List.cons_append, alphaGo] at hrec
      simp only [List.cons_append, matchToks, alphaThen, alphaGo, hal.1, Bool.true_and,
        Bool.or_eq_true, Bool.and_eq_true]
      right
      simp only [Bool.and_eq_true, Bool.or_eq_true] at hrec
      exact hrec

theorem match_nil : matchToks [] [] = true := rfl

theorem monthNameU_ne_nil {m : Nat} (h1 : 1 ≤ m) (h2 : m ≤ 12) : monthNameU m ≠ [] := by
  interval_cases m <;> decide

theorem monthNameU_all_alpha {m : Nat} (h1 : 1 ≤ m) (h2 : m ≤ 12) :
    (monthNameU m).all isAlphaCh = true := by
  interval_cases m <;> decide

theorem monthAbbrU_ne_nil {m : Nat} (h1 : 1 ≤ m) (h2 : m ≤ 12) : monthAbbrU m ≠ [] := by
  interval_cases m <;> decide

theorem monthAbbrU_all_alpha {m : Nat} (h1 : 1 ≤ m) (h2 : m ≤ 12) :
    (monthAbbrU m).all isAlphaCh = true := by
  interval_cases m <;> decide

/-! ## Parse-side membership lemmas: each strptime directive accepts its
zero-padded rendering -/

theorem mem_altsY {y : Nat} (h : y ≤ 9999) (rest : List Char) :
    (y, rest) ∈ altsY (pad4 y ++ rest) := by
  have h1 := dch_isDigit (show y / 1000 % 10 ≤ 9 by omega)
  have h2 := dch_isDigit (show y / 100 % 10 ≤ 9 by omega)
  have h3 := dch_isDigit (show y / 10 % 10 ≤ 9 by omega)
  have h4 := dch_isDigit (show y % 10 ≤ 9 by omega)
  have e1 := cv_dch (show y / 1000 % 10 ≤ 9 by omega)
  have e2 := cv_dch (show y / 100 % 10 ≤ 9 by omega)
  have e3 := cv_dch (show y / 10 % 10 ≤ 9 by omega)
  have e4 := cv_dch (show y % 10 ≤ 9 by omega)
  simp only [pad4, List.cons_append, List.nil_append, altsY, h1, h2, h3, h4,
    Bool.and_self, Bool.and_true, Bool.true_and, if_true, e1, e2, e3, e4,
    List.mem_singleton, Prod.mk.injEq]
  constructor
  · omega
  · trivial

theorem mem_altsY2 {r : Nat} (h : r ≤ 99) (rest : List Char) :
    (r, rest) ∈ altsY2 (pad2 r ++ rest) := by
  have h1 := dch_isDigit (show r / 10 % 10 ≤ 9 by omega)
  have h2 := dch_isDigit (show r % 10 ≤ 9 by omega)
  have e1 := cv_dch (show r / 10 % 10 ≤ 9 by omega)
  have e2 := cv_dch (show r % 10 ≤ 9 by omega)
  simp only [pad2, List.cons_append, List.nil_append, altsY2, h1, h2,
    Bool.and_self, Bool.and_true, Bool.true_and, if_true, e1, e2,
    List.mem_singleton, Prod.mk.injEq]
  constructor
  · omega
  · trivial

theorem mem_altsM {m : Nat} (h1 : 1 ≤ m) (h2 : m ≤ 12) (rest : List Char) :
    (m, rest) ∈ altsM (pad2 m ++ rest) := by
  interval_cases m <;> exact List.Mem.head _

theorem mem_altsD {d : Nat} (h1 : 1 ≤ d) (h2 : d ≤ 31) (rest : List Char) :
    (d, rest) ∈ altsD (pad2 d ++ rest) := by
  interval_cases d <;> exact List.Mem.head _

theorem mem_altsH {h : Nat} (hh : h ≤ 23) (rest : List Char) :
    (h, rest) ∈ altsH (pad2 h ++ rest) := by
  interval_cases h <;> exact List.Mem.head _

theorem mem_altsMin {mi : Nat} (hmi : mi ≤ 59) (rest : List Char) :
    (mi, rest) ∈ altsMin (pad2 mi ++ rest) := by
  interval_cases mi <;> exact List.Mem.head _

theorem mem_altsS {s : Nat} (hs : s ≤ 59) (rest : List Char) :
    (s, rest) ∈ altsS (pad2 s ++ rest) := by
  interval_cases s <;> exact List.Mem.head _

theorem mem_altsB {m : Nat} (h1 : 1 ≤ m) (h2 : m ≤ 12) (rest : List Char) :
    (m, rest) ∈ altsName monthsFull (monthNameU m ++ rest) := by
  interval_cases m <;> exact List.Mem.head _

theorem mem_altsb {m : Nat} (h1 : 1 ≤ m) (h2 : m ≤ 12) (rest : List Char) :
    (m, rest) ∈ altsName monthsAbbr (monthAbbrU m ++ rest) := by
  interval_cases m <;> exact List.Mem.head _

/-! ## stepAlts membership wrappers -/

theorem mem_step_dY {y : Nat} (h : y ≤ 9999) (rest : List Char) (f : PFields) :
    (rest, {f with y4 := some y}) ∈ stepAlts Dir.dY (pad4 y ++ rest) f :=
  List.mem_map.2 ⟨(y, rest), mem_altsY h rest, rfl⟩

theorem mem_step_dy2 {r : Nat} (h : r ≤ 99) (rest : List Char) (f : PFields) :
    (rest, {f with y2 := some r}) ∈ stepAlts Dir.dy2 (pad2 r ++ rest) f :=
  List.mem_map.2 ⟨(r, rest), mem_altsY2 h rest, rfl⟩

theorem mem_step_dm {m : Nat} (h1 : 1 ≤ m) (h2 : m ≤ 12) (rest : List Char) (f : PFields) :
    (rest, {f with mon := some m}) ∈ stepAlts Dir.dm (pad2 m ++ rest) f :=
  List.mem_map.2 ⟨(m, rest), mem_altsM h1 h2 rest, rfl⟩

theorem mem_step_dd {d : Nat} (h1 : 1 ≤ d) (h2 : d ≤ 31) (rest : List Char) (f : PFields) :
    (rest, {f with day := some d}) ∈ stepAlts Dir.dd (pad2 d ++ rest) f :=
  List.mem_map.2 ⟨(d, rest), mem_altsD h1 h2 rest, rfl⟩

theorem mem_step_dH {h : Nat} (hh : h ≤ 23) (rest : List Char) (f : PFields) :
    (rest, {f with hour := some h}) ∈ stepAlts Dir.dH (pad2 h ++ rest) f :=
  List.mem_map.2 ⟨(h, rest), mem_altsH hh rest, rfl⟩

theorem mem_step_dMin {mi : Nat} (hmi : mi ≤ 59) (rest : List Char) (f : PFields) :
    (rest, {f with minute := some mi}) ∈ stepAlts Dir.dMin (pad2 mi ++ rest) f :=
  List.mem_map.2 ⟨(mi, rest), mem_altsMin hmi rest, rfl⟩

theorem mem_step_dS {s : Nat} (hs : s ≤ 59) (rest : List Char) (f : PFields) :
    (rest, {f with sec := some s}) ∈ stepAlts Dir.dS (pad2 s ++ rest) f :=
  List.mem_map.2 ⟨(s, rest), mem_altsS hs rest, rfl⟩

theorem mem_step_dB {m : Nat} (h1 : 1 ≤ m) (h2 : m ≤ 12) (rest : List Char) (f : PFields) :
    (rest, {f with mon := some m}) ∈ stepAlts Dir.dB (monthNameU m ++ rest) f :=
  List.mem_map.2 ⟨(m, rest), mem_altsB h1 h2 rest, rfl⟩

theorem mem_step_db {m : Nat} (h1 : 1 ≤ m) (h2 : m ≤ 12) (rest : List Char) (f : PFields) :
    (rest, {f with mon := some m}) ∈ stepAlts Dir.db (monthAbbrU m ++ rest) f :=
  List.mem_map.2 ⟨(m, rest), mem_altsb h1 h2 rest, rfl⟩

theorem mem_step_lit (c : Char) (rest : List Char) (f : PFields) :
    (rest, f) ∈ stepAlts (Dir.lit c) (c :: rest) f := by
  simp [stepAlts]

theorem mem_step_ws (rest : List Char) (f : PFields) :
    (rest, f) ∈ stepAlts Dir.ws (' ' :: rest) f := by
  simp [stepAlts, wsAlts, (by decide : isSpaceCh ' ' = true)]

/-! ## runDirs membership -/

theorem mem_seqAlts {g : List Char × PFields → List PFields}
    {alts : List (List Char × PFields)} {a : List Char × PFields} {x : PFields}
    (ha : a ∈ alts) (hx : x ∈ g a) : x ∈ seqAlts g alts := by
  induction alts with
  | nil => cases ha
  | cons b bs ih =>
    cases ha with
    | head => exact List.mem_append_left _ hx
    | tail _ hmem => exact List.mem_append_right _ (ih hmem)

theorem mem_runDirs_nil (f : PFields) : f ∈ runDirs [] ([], f) := by
  simp [runDirs]

theorem mem_runDirs_cons {d : Dir} {ds : List Dir} {cs rest : List Char}
    {f f' ff : PFields} (h1 : (rest, f') ∈ stepAlts d cs f)
    (h2 : ff ∈ runDirs ds (rest, f')) : ff ∈ runDirs (d :: ds) (cs, f) :=
  mem_seqAlts h1 h2

/-! ## Datetime validity lemmas -/

theorem daysInMonth_le (y m : Nat) : daysInMonth y m ≤ 31 := by
  unfold daysInMonth
  split
  any_goals omega
  split_ifs <;> omega

theorem inBounds_of_year {y mo d h mi s : Nat} (h1 : 1678 ≤ y) (h2 : y ≤ 2261) :
    inBoundsTs y mo d h mi s = true := by
  rw [inBoundsTs, Bool.and_eq_true]
  constructor
  · simp only [lexLe, Bool.or_eq_true, decide_eq_true_eq]
    left; omega
  · simp only [lexLe, Bool.or_eq_true, decide_eq_true_eq]
    left; omega

theorem isLeap_mapY2 {y : Nat} (_h1 : 1678 ≤ y) (_h2 : y ≤ 2261) (hL : isLeap y = true) :
    isLeap (mapY2 (y % 100)) = true := by
  simp only [isLeap, mapY2, Bool.or_eq_true, Bool.and_eq_true, beq_iff_eq,
    bne_iff_ne, ne_eq] at hL ⊢
  split_ifs with hr
  · omega
  · omega

theorem daysInMonth_mapY2 {y mo d : Nat} (hy1 : 1678 ≤ y) (hy2 : y ≤ 2261)
    (hmo1 : 1 ≤ mo) (hmo2 : mo ≤ 12) (hd : d ≤ daysInMonth y mo) :
    d ≤ daysInMonth (mapY2 (y % 100)) mo := by
  interval_cases mo
  · simpa [daysInMonth] using hd
  · simp only [daysInMonth] at hd ⊢
    cases hL : isLeap y with
    | false => rw [hL] at hd; simp at hd; split_ifs <;> omega
    | true => rw [isLeap_mapY2 hy1 hy2 hL]; rw [hL] at hd; omega
  · simpa [daysInMonth] using hd
  · simpa [daysInMonth] using hd
  · simpa [daysInMonth] using hd
  · simpa [daysInMonth] using hd
  · simpa [daysInMonth] using hd
  · simpa [daysInMonth] using hd
  · simpa [daysInMonth] using hd
  · simpa [daysInMonth] using hd
  · simpa [daysInMonth] using hd
  · simpa [daysInMonth] using hd

theorem mapY2_year_bounds {r : Nat} (h : r ≤ 99) : 1678 ≤ mapY2 r ∧ mapY2 r ≤ 2261 := by
  unfold mapY2
  split_ifs <;> omega

theorem validFields_ymd {y mo d : Nat} (hy1 : 1678 ≤ y) (hy2 : y ≤ 2261)
    (hmo1 : 1 ≤ mo) (hmo2 : mo ≤ 12) (hd1 : 1 ≤ d) (hd2 : d ≤ daysInMonth y mo) :
    validFields { y4 := some y, mon := some mo, day := some d } = true := by
  simp [validFields, Option.getD_none, Option.getD_some,
    inBounds_of_year hy1 hy2, hmo1, hmo2, hd1, hd2]

theorem validFields_ymdhm {y mo d h mi : Nat} (hy1 : 1678 ≤ y) (hy2 : y ≤ 2261)
    (hmo1 : 1 ≤ mo) (hmo2 : mo ≤ 12) (hd1 : 1 ≤ d) (hd2 : d ≤ daysInMonth y mo)
    (hh : h ≤ 23) (hmi : mi ≤ 59) :
    validFields { y4 := some y, mon := some mo, day := some d,
                  hour := some h, minute := some mi } = true := by
  simp [validFields, Option.getD_none, Option.getD_some,
    inBounds_of_year hy1 hy2, hmo1, hmo2, hd1, hd2, hh, hmi]

theorem validFields_ymdhms {y mo d h mi s : Nat} (hy1 : 1678 ≤ y) (hy2 : y ≤ 2261)
    (hmo1 : 1 ≤ mo) (hmo2 : mo ≤ 12) (hd1 : 1 ≤ d) (hd2 : d ≤ daysInMonth y mo)
    (hh : h ≤ 23) (hmi : mi ≤ 59) (hs : s ≤ 59) :
    validFields { y4 := some y, mon := some mo, day := some d,
                  hour := some h, minute := some mi, sec := some s } = true := by
  simp [validFields, Option.getD_none, Option.getD_some,
    inBounds_of_year hy1 hy2, hmo1, hmo2, hd1, hd2, hh, hmi, hs]

theorem validFields_y2md {y mo d : Nat} (hy1 : 1678 ≤ y) (hy2 : y ≤ 2261)
    (hmo1 : 1 ≤ mo) (hmo2 : mo ≤ 12) (hd1 : 1 ≤ d) (hd2 : d ≤ daysInMonth y mo) :
    validFields { y2 := some (y % 100), mon := some mo, day := some d } = true := by
  have hb := mapY2_year_bounds (show y % 100 ≤ 99 by omega)
  simp [validFields, Option.getD_none, Option.getD_some,
    inBounds_of_year hb.1 hb.2, hmo1, hmo2, hd1,
    daysInMonth_mapY2 hy1 hy2 hmo1 hmo2 hd2]

/-! ## Round-trip core lemmas, one per catalog shape -/

theorem rt_Ymd_core {dt : DT} (h : ValidDT dt) (sep : Char) :
    matchToks [Tok.digits 4 4, Tok.lit sep, Tok.digits 1 2, Tok.lit sep, Tok.digits 1 2]
      (pad4 dt.year ++ (sep :: (pad2 dt.mon ++ (sep :: (pad2 dt.day ++ []))))) = true ∧
    (runDirs [Dir.dY, Dir.lit sep, Dir.dm, Dir.lit sep, Dir.dd]
      (pad4 dt.year ++ (sep :: (pad2 dt.mon ++ (sep :: (pad2 dt.day ++ [])))),
        emptyF)).any validFields = true := by
  obtain ⟨hy1, hy2, hm1, hm2, hd1, hd2, hh, hmi, hs⟩ := h
  constructor
  · exact match_pad4 _ (match_lit_step (match_pad2_12 _ (match_lit_step
      (match_pad2_12 _ match_nil))))
  · rw [List.any_eq_true]
    refine ⟨{ y4 := some dt.year, mon := some dt.mon, day := some dt.day }, ?_, ?_⟩
    · exact mem_runDirs_cons (mem_step_dY (by omega) _ _)
        (mem_runDirs_cons (mem_step_lit _ _ _)
          (mem_runDirs_cons (mem_step_dm hm1 hm2 _ _)
            (mem_runDirs_cons (mem_step_lit _ _ _)
              (mem_runDirs_cons (mem_step_dd hd1 (hd2.trans (daysInMonth_le _ _)) _ _)
                (mem_runDirs_nil _)))))
    · exact validFields_ymd hy1 hy2 hm1 hm2 hd1 hd2

theorem rt_YmdHMS_core {dt : DT} (h : ValidDT dt) :
    matchToks [Tok.digits 4 4, Tok.lit '-', Tok.digits 1 2, Tok.lit '-', Tok.digits 1 2,
        Tok.lit ' ', Tok.digits 1 2, Tok.lit ':', Tok.digits 2 2, Tok.lit ':', Tok.digits 2 2]
      (pad4 dt.year ++ ('-' :: (pad2 dt.mon ++ ('-' :: (pad2 dt.day ++ (' ' ::
        (pad2 dt.hour ++ (':' :: (pad2 dt.minute ++ (':' :: (pad2 dt.sec ++ []))))))))))) = true ∧
    (runDirs [Dir.dY, Dir.lit '-', Dir.dm, Dir.lit '-', Dir.dd, Dir.ws, Dir.dH,
        Dir.lit ':', Dir.dMin, Dir.lit ':', Dir.dS]
      (pad4 dt.year ++ ('-' :: (pad2 dt.mon ++ ('-' :: (pad2 dt.day ++ (' ' ::
        (pad2 dt.hour ++ (':' :: (pad2 dt.minute ++ (':' :: (pad2 dt.sec ++ [])))))))))),
        emptyF)).any validFields = true := by
  obtain ⟨hy1, hy2, hm1, hm2, hd1, hd2, hh, hmi, hs⟩ := h
  constructor
  · exact match_pad4 _ (match_lit_step (match_pad2_12 _ (match_lit_step
      (match_pad2_12 _ (match_lit_step (match_pad2_12 _ (match_lit_step
        (match_pad2_22 _ (match_lit_step (match_pad2_22 _ match_nil))))))))))
  · rw [List.any_eq_true]
    refine ⟨{ y4 := some dt.year, mon := some dt.mon, day := some dt.day,
              hour := some dt.hour, minute := some dt.minute, sec := some dt.sec },
      ?_, ?_⟩
    · exact mem_runDirs_cons (mem_step_dY (by omega) _ _)
        (mem_runDirs_cons (mem_step_lit _ _ _)
          (mem_runDirs_cons (mem_step_dm hm1 hm2 _ _)
            (mem_runDirs_cons (mem_step_lit _ _ _)
              (mem_runDirs_cons (mem_step_dd hd1 (hd2.trans (daysInMonth_le _ _)) _ _)
                (mem_runDirs_cons (mem_step_ws _ _)
                  (mem_runDirs_cons (mem_step_dH hh _ _)
                    (mem_runDirs_cons (mem_step_lit _ _ _)
                      (mem_runDirs_cons (mem_step_dMin hmi _ _)
                        (mem_runDirs_cons (mem_step_lit _ _ _)
                          (mem_runDirs_cons (mem_step_dS hs _ _)
                            (mem_runDirs_nil _)))))))))))
    · exact validFields_ymdhms hy1 hy2 hm1 hm2 hd1 hd2 hh hmi hs

theorem rt_YmdHM_core {dt : DT} (h : ValidDT dt) :
    matchToks [Tok.digits 4 4, Tok.lit '-', Tok.digits 1 2, Tok.lit '-', Tok.digits 1 2,
        Tok.lit ' ', Tok.digits 1 2, Tok.lit ':', Tok.digits 2 2]
      (pad4 dt.year ++ ('-' :: (pad2 dt.mon ++ ('-' :: (pad2 dt.day ++ (' ' ::
        (pad2 dt.hour ++ (':' :: (pad2 dt.minute ++ []))))))))) = true ∧
    (runDirs [Dir.dY, Dir.lit '-', Dir.dm, Dir.lit '-', Dir.dd, Dir.ws, Dir.dH,
        Dir.lit ':', Dir.dMin]
      (pad4 dt.year ++ ('-' :: (pad2 dt.mon ++ ('-' :: (pad2 dt.day ++ (' ' ::
        (pad2 dt.hour ++ (':' :: (pad2 dt.minute ++ [])))))))),
        emptyF)).any validFields = true := by
  obtain ⟨hy1, hy2, hm1, hm2, hd1, hd2, hh, hmi, hs⟩ := h
  constructor
  · exact match_pad4 _ (match_lit_step (match_pad2_12 _ (match_lit_step
      (match_pad2_12 _ (match_lit_step (match_pad2_12 _ (match_lit_step
        (match_pad2_22 _ match_nil))))))))
  · rw [List.any_eq_true]
    refine ⟨{ y4 := some dt.year, mon := some dt.mon, day := some dt.day,
              hour := some dt.hour, minute := some dt.minute }, ?_, ?_⟩
    · exact mem_runDirs_cons (mem_step_dY (by omega) _ _)
        (mem_runDirs_cons (mem_step_lit _ _ _)
          (mem_runDirs_cons (mem_step_dm hm1 hm2 _ _)
            (mem_runDirs_cons (mem_step_lit _ _ _)
              (mem_runDirs_cons (mem_step_dd hd1 (hd2.trans (daysInMonth_le _ _)) _ _)
                (mem_runDirs_cons (mem_step_ws _ _)
                  (mem_runDirs_cons (mem_step_dH hh _ _)
                    (mem_runDirs_cons (mem_step_lit _ _ _)
                      (mem_runDirs_cons (mem_step_dMin hmi _ _)
                        (mem_runDirs_nil _)))))))))
    · exact validFields_ymdhm hy1 hy2 hm1 hm2 hd1 hd2 hh hmi

theorem rt_dmY_core {dt : DT} (h : ValidDT dt) (sep : Char) :
    matchToks [Tok.digits 1 2, Tok.lit sep, Tok.digits 1 2, Tok.lit sep, Tok.digits 4 4]
      (pad2 dt.day ++ (sep :: (pad2 dt.mon ++ (sep :: (pad4 dt.year ++ []))))) = true ∧
    (runDirs [Dir.dd, Dir.lit sep, Dir.dm, Dir.lit sep, Dir.dY]
      (pad2 dt.day ++ (sep :: (pad2 dt.mon ++ (sep :: (pad4 dt.year ++ [])))),
        emptyF)).any validFields = true := by
  obtain ⟨hy1, hy2, hm1, hm2, hd1, hd2, hh, hmi, hs⟩ := h
  constructor
  · exact match_pad2_12 _ (match_lit_step (match_pad2_12 _ (match_lit_step
      (match_pad4 _ match_nil))))
  · rw [List.any_eq_true]
    refine ⟨{ y4 := some dt.year, mon := some dt.mon, day := some dt.day }, ?_, ?_⟩
    · exact mem_runDirs_cons (mem_step_dd hd1 (hd2.trans (daysInMonth_le _ _)) _ _)
        (mem_runDirs_cons (mem_step_lit _ _ _)
          (mem_runDirs_cons (mem_step_dm hm1 hm2 _ _)
            (mem_runDirs_cons (mem_step_lit _ _ _)
              (mem_runDirs_cons (mem_step_dY (by omega) _ _)
                (mem_runDirs_nil _)))))
    · exact validFields_ymd hy1 hy2 hm1 hm2 hd1 hd2

theorem rt_dmy2_core {dt : DT} (h : ValidDT dt) (sep : Char) :
    matchToks [Tok.digits 1 2, Tok.lit sep, Tok.digits 1 2, Tok.lit sep, Tok.digits 2 2]
      (pad2 dt.day ++ (sep :: (pad2 dt.mon ++ (sep :: (pad2 (dt.year % 100) ++ []))))) = true ∧
    (runDirs [Dir.dd, Dir.lit sep, Dir.dm, Dir.lit sep, Dir.dy2]
      (pad2 dt.day ++ (sep :: (pad2 dt.mon ++ (sep :: (pad2 (dt.year % 100) ++ [])))),
        emptyF)).any validFields = true := by
  obtain ⟨hy1, hy2, hm1, hm2, hd1, hd2, hh, hmi, hs⟩ := h
  constructor
  · exact match_pad2_12 _ (match_lit_step (match_pad2_12 _ (match_lit_step
      (match_pad2_22 _ match_nil))))
  · rw [List.any_eq_true]
    refine ⟨{ y2 := some (dt.year % 100), mon := some dt.mon, day := some dt.day }, ?_, ?_⟩
    · exact mem_runDirs_cons (mem_step_dd hd1 (hd2.trans (daysInMonth_le _ _)) _ _)
        (mem_runDirs_cons (mem_step_lit _ _ _)
          (mem_runDirs_cons (mem_step_dm hm1 hm2 _ _)
            (mem_runDirs_cons (mem_step_lit _ _ _)
              (mem_runDirs_cons (mem_step_dy2 (by omega) _ _)
                (mem_runDirs_nil _)))))
    · exact validFields_y2md hy1 hy2 hm1 hm2 hd1 hd2

theorem rt_mdY_core {dt : DT} (h : ValidDT dt) (sep : Char) :
    matchToks [Tok.digits 1 2, Tok.lit sep, Tok.digits 1 2, Tok.lit sep, Tok.digits 4 4]
      (pad2 dt.mon ++ (sep :: (pad2 dt.day ++ (sep :: (pad4 dt.year ++ []))))) = true ∧
    (runDirs [Dir.dm, Dir.lit sep, Dir.dd, Dir.lit sep, Dir.dY]
      (pad2 dt.mon ++ (sep :: (pad2 dt.day ++ (sep :: (pad4 dt.year ++ [])))),
        emptyF)).any validFields = true := by
  obtain ⟨hy1, hy2, hm1, hm2, hd1, hd2, hh, hmi, hs⟩ := h
  constructor
  · exact match_pad2_12 _ (match_lit_step (match_pad2_12 _ (match_lit_step
      (match_pad4 _ match_nil))))
  · rw [List.any_eq_true]
    refine ⟨{ y4 := some dt.year, mon := some dt.mon, day := some dt.day }, ?_, ?_⟩
    · exact mem_runDirs_cons (mem_step_dm hm1 hm2 _ _)
        (mem_runDirs_cons (mem_step_lit _ _ _)
          (mem_runDirs_cons (mem_step_dd hd1 (hd2.trans (daysInMonth_le _ _)) _ _)
            (mem_runDirs_cons (mem_step_lit _ _ _)
              (mem_runDirs_cons (mem_step_dY (by omega) _ _)
                (mem_runDirs_nil _)))))
    · exact validFields_ymd hy1 hy2 hm1 hm2 hd1 hd2

theorem rt_mdy2_core {dt : DT} (h : ValidDT dt) (sep : Char) :
    matchToks [Tok.digits 1 2, Tok.lit sep, Tok.digits 1 2, Tok.lit sep, Tok.digits 2 2]
      (pad2 dt.mon ++ (sep :: (pad2 dt.day ++ (sep :: (pad2 (dt.year % 100) ++ []))))) = true ∧
    (runDirs [Dir.dm, Dir.lit sep, Dir.dd, Dir.lit sep, Dir.dy2]
      (pad2 dt.mon ++ (sep :: (pad2 dt.day ++ (sep :: (pad2 (dt.year % 100) ++ [])))),
        emptyF)).any validFields = true := by
  obtain ⟨hy1, hy2, hm1, hm2, hd1, hd2, hh, hmi, hs⟩ := h
  constructor
  · exact match_pad2_12 _ (match_lit_step (match_pad2_12 _ (match_lit_step
      (match_pad2_22 _ match_nil))))
  · rw [List.any_eq_true]
    refine ⟨{ y2 := some (dt.year % 100), mon := some dt.mon, day := some dt.day }, ?_, ?_⟩
    · exact mem_runDirs_cons (mem_step_dm hm1 hm2 _ _)
        (mem_runDirs_cons (mem_step_lit _ _ _)
          (mem_runDirs_cons (mem_step_dd hd1 (hd2.trans (daysInMonth_le _ _)) _ _)
            (mem_runDirs_cons (mem_step_lit _ _ _)
              (mem_runDirs_cons (mem_step_dy2 (by omega) _ _)
                (mem_runDirs_nil _)))))
    · exact validFields_y2md hy1 hy2 hm1 hm2 hd1 hd2

theorem rt_BdY_core {dt : DT} (h : ValidDT dt) :
    matchToks [Tok.alpha, Tok.lit ' ', Tok.digits 1 2, Tok.lit ',', Tok.lit ' ',
        Tok.digits 4 4]
      (monthNameU dt.mon ++ (' ' :: (pad2 dt.day ++ (',' :: (' ' ::
        (pad4 dt.year ++ [])))))) = true ∧
    (runDirs [Dir.dB, Dir.ws, Dir.dd, Dir.lit ',', Dir.ws, Dir.dY]
      (monthNameU dt.mon ++ (' ' :: (pad2 dt.day ++ (',' :: (' ' ::
        (pad4 dt.year ++ []))))), emptyF)).any validFields = true := by
  obtain ⟨hy1, hy2, hm1, hm2, hd1, hd2, hh, hmi, hs⟩ := h
  constructor
  · exact match_alpha_step (monthNameU_ne_nil hm1 hm2) (monthNameU_all_alpha hm1 hm2)
      (match_lit_step (match_pad2_12 _ (match_lit_step (match_lit_step
        (match_pad4 _ match_nil)))))
  · rw [List.any_eq_true]
    refine ⟨{ y4 := some dt.year, mon := some dt.mon, day := some dt.day }, ?_, ?_⟩
    · exact mem_runDirs_cons (mem_step_dB hm1 hm2 _ _)
        (mem_runDirs_cons (mem_step_ws _ _)
          (mem_runDirs_cons (mem_step_dd hd1 (hd2.trans (daysInMonth_le _ _)) _ _)
            (mem_runDirs_cons (mem_step_lit _ _ _)
              (mem_runDirs_cons (mem_step_ws _ _)
                (mem_runDirs_cons (mem_step_dY (by omega) _ _)
                  (mem_runDirs_nil _))))))
    · exact validFields_ymd hy1 hy2 hm1 hm2 hd1 hd2

theorem rt_bdY_core {dt : DT} (h : ValidDT dt) :
    matchToks [Tok.alpha, Tok.lit ' ', Tok.digits 1 2, Tok.lit ',', Tok.lit ' ',
        Tok.digits 4 4]
      (monthAbbrU dt.mon ++ (' ' :: (pad2 dt.day ++ (',' :: (' ' ::
        (pad4 dt.year ++ [])))))) = true ∧
    (runDirs [Dir.db, Dir.ws, Dir.dd, Dir.lit ',', Dir.ws, Dir.dY]
      (monthAbbrU dt.mon ++ (' ' :: (pad2 dt.day ++ (',' :: (' ' ::
        (pad4 dt.year ++ []))))), emptyF)).any validFields = true := by
  obtain ⟨hy1, hy2, hm1, hm2, hd1, hd2, hh, hmi, hs⟩ := h
  constructor
  · exact match_alpha_step (monthAbbrU_ne_nil hm1 hm2) (monthAbbrU_all_alpha hm1 hm2)
      (match_lit_step (match_pad2_12 _ (match_lit_step (match_lit_step
        (match_pad4 _ match_nil)))))
  · rw [List.any_eq_true]
    refine ⟨{ y4 := some dt.year, mon := some dt.mon, day := some dt.day }, ?_, ?_⟩
    · exact mem_runDirs_cons (mem_step_db hm1 hm2 _ _)
        (mem_runDirs_cons (mem_step_ws _ _)
          (mem_runDirs_cons (mem_step_dd hd1 (hd2.trans (daysInMonth_le _ _)) _ _)
            (mem_runDirs_cons (mem_step_lit _ _ _)
              (mem_runDirs_cons (mem_step_ws _ _)
                (mem_runDirs_cons (mem_step_dY (by omega) _ _)
                  (mem_runDirs_nil _))))))
    · exact validFields_ymd hy1 hy2 hm1 hm2 hd1 hd2

theorem rt_dBY_core {dt : DT} (h : ValidDT dt) :
    matchToks [Tok.digits 1 2, Tok.lit ' ', Tok.alpha, Tok.lit ' ', Tok.digits 4 4]
      (pad2 dt.day ++ (' ' :: (monthNameU dt.mon ++ (' ' ::
        (pad4 dt.year ++ []))))) = true ∧
    (runDirs [Dir.dd, Dir.ws, Dir.dB, Dir.ws, Dir.dY]
      (pad2 dt.day ++ (' ' :: (monthNameU dt.mon ++ (' ' :: (pad4 dt.year ++ [])))),
        emptyF)).any validFields = true := by
  obtain ⟨hy1, hy2, hm1, hm2, hd1, hd2, hh, hmi, hs⟩ := h
  constructor
  · exact match_pad2_12 _ (match_lit_step (match_alpha_step
      (monthNameU_ne_nil hm1 hm2) (monthNameU_all_alpha hm1 hm2)
      (match_lit_step (match_pad4 _ match_nil))))
  · rw [List.any_eq_true]
    refine ⟨{ y4 := some dt.year, mon := some dt.mon, day := some dt.day }, ?_, ?_⟩
    · exact mem_runDirs_cons (mem_step_dd hd1 (hd2.trans (daysInMonth_le _ _)) _ _)
        (mem_runDirs_cons (mem_step_ws _ _)
          (mem_runDirs_cons (mem_step_dB hm1 hm2 _ _)
            (mem_runDirs_cons (mem_step_ws _ _)
              (mem_runDirs_cons (mem_step_dY (by omega) _ _)
                (mem_runDirs_nil _)))))
    · exact validFields_ymd hy1 hy2 hm1 hm2 hd1 hd2

theorem rt_dbY_core {dt : DT} (h : ValidDT dt) :
    matchToks [Tok.digits 1 2, Tok.lit ' ', Tok.alpha, Tok.lit ' ', Tok.digits 4 4]
      (pad2 dt.day ++ (' ' :: (monthAbbrU dt.mon ++ (' ' ::
        (pad4 dt.year ++ []))))) = true ∧
    (runDirs [Dir.dd, Dir.ws, Dir.db, Dir.ws, Dir.dY]
      (pad2 dt.day ++ (' ' :: (monthAbbrU dt.mon ++ (' ' :: (pad4 dt.year ++ [])))),
        emptyF)).any validFields = true := by
  obtain ⟨hy1, hy2, hm1, hm2, hd1, hd2, hh, hmi, hs⟩ := h
  constructor
  · exact match_pad2_12 _ (match_lit_step (match_alpha_step
      (monthAbbrU_ne_nil hm1 hm2) (monthAbbrU_all_alpha hm1 hm2)
      (match_lit_step (match_pad4 _ match_nil))))
  · rw [List.any_eq_true]
    refine ⟨{ y4 := some dt.year, mon := some dt.mon, day := some dt.day }, ?_, ?_⟩
    · exact mem_runDirs_cons (mem_step_dd hd1 (hd2.trans (daysInMonth_le _ _)) _ _)
        (mem_runDirs_cons (mem_step_ws _ _)
          (mem_runDirs_cons (mem_step_db hm1 hm2 _ _)
            (mem_runDirs_cons (mem_step_ws _ _)
              (mem_runDirs_cons (mem_step_dY (by omega) _ _)
                (mem_runDirs_nil _)))))
    · exact validFields_ymd hy1 hy2 hm1 hm2 hd1 hd2

/-- Every catalog entry round-trips: a value rendered with the entry's format
at a valid datetime matches the entry's regex and strictly parses under the
entry's format. -/
theorem rt_match_parse : ∀ p ∈ formatPatterns, ∀ dt : DT, ValidDT dt →
    matchToks p.2 (genValue p.1 dt) = true ∧ parseOk p.1 (genValue p.1 dt) = true := by
  intro p hp dt hdt
  fin_cases hp
  · exact rt_Ymd_core hdt '-'
  · exact rt_YmdHMS_core hdt
  · exact rt_YmdHM_core hdt
  · exact rt_dmY_core hdt '/'
  · exact rt_dmy2_core hdt '/'
  · exact rt_dmY_core hdt '-'
  · exact rt_dmy2_core hdt '-'
  · exact rt_dmY_core hdt '.'
  · exact rt_dmy2_core hdt '.'
  · exact rt_mdY_core hdt '/'
  · exact rt_mdy2_core hdt '/'
  · exact rt_mdY_core hdt '-'
  · exact rt_mdy2_core hdt '-'
  · exact rt_Ymd_core hdt '/'
  · exact rt_Ymd_core hdt '.'
  · exact rt_BdY_core hdt
  · exact rt_bdY_core hdt
  · exact rt_dBY_core hdt
  · exact rt_dbY_core hdt

/-! ## Rendered values have no leading/trailing whitespace -/

theorem pyStrip_eq_self {l : List Char} {c c' : Char} (hhead : l.head? = some c)
    (hc : isSpaceCh c = false) (hlast : l.getLast? = some c')
    (hc' : isSpaceCh c' = false) : pyStrip l = l := by
  unfold pyStrip
  have h1 : l.dropWhile isSpaceCh = l := by
    cases l with
    | nil => cases hhead
    | cons x xs =>
      simp only [List.head?_cons, Option.some.injEq] at hhead
      subst hhead
      rw [List.dropWhile_cons, hc]
      simp
  rw [h1]
  have h2 : l.reverse.dropWhile isSpaceCh = l.reverse := by
    cases hrev : l.reverse with
    | nil =>
      rfl
    | cons x xs =>
      have : l.reverse.head? = some c' := by rw [List.head?_reverse]; exact hlast
      rw [hrev] at this
      simp only [List.head?_cons, Option.some.injEq] at this
      subst this
      rw [List.dropWhile_cons, hc']
      simp
  rw [h2, List.reverse_reverse]

theorem head?_append_some {l l' : List Char} {c : Char} (h : l.head? = some c) :
    (l ++ l').head? = some c := by
  cases l with
  | nil => cases h
  | cons x xs =>
    simp only [List.head?_cons, Option.some.injEq] at h
    subst h
    rfl

theorem getLast?_append_some {l l' : List Char} {c : Char} (h : l'.getLast? = some c) :
    (l ++ l').getLast? = some c := by
  rw [List.getLast?_append, h]
  rfl

theorem getLast?_cons_some {x c : Char} {R : List Char} (h : R.getLast? = some c) :
    (x :: R).getLast? = some c := by
  cases R with
  | nil => cases h
  | cons y ys => rw [List.getLast?_cons_cons]; exact h

theorem monthNameU_head_nonspace {m : Nat} (h1 : 1 ≤ m) (h2 : m ≤ 12) :
    ∃ ch, (monthNameU m).head? = some ch ∧ isSpaceCh ch = false := by
  interval_cases m <;> exact ⟨_, rfl, by decide⟩

theorem monthAbbrU_head_nonspace {m : Nat} (h1 : 1 ≤ m) (h2 : m ≤ 12) :
    ∃ ch, (monthAbbrU m).head? = some ch ∧ isSpaceCh ch = false := by
  interval_cases m <;> exact ⟨_, rfl, by decide⟩

/-- A rendered catalog value strips to itself: its first and last characters
are digits or letters, never whitespace. -/
theorem genValue_strip : ∀ p ∈ formatPatterns, ∀ dt : DT, ValidDT dt →
    pyStrip (genValue p.1 dt) = genValue p.1 dt := by
  intro p hp dt hdt
  obtain ⟨hy1, hy2, hm1, hm2, hd1, hd2, hh, hmi, hs⟩ := hdt
  fin_cases hp
  -- %Y-%m-%d
  · exact pyStrip_eq_self rfl (dch_nonspace (by omega))
      (getLast?_append_some (getLast?_cons_some (getLast?_append_some
        (getLast?_cons_some rfl)))) (dch_nonspace (by omega))
  -- %Y-%m-%d %H:%M:%S
  · exact pyStrip_eq_self rfl (dch_nonspace (by omega))
      (getLast?_append_some (getLast?_cons_some (getLast?_append_some
        (getLast?_cons_some (getLast?_append_some (getLast?_cons_some
          (getLast?_append_some (getLast?_cons_some (getLast?_append_some
            (getLast?_cons_some rfl)))))))))) (dch_nonspace (by omega))
  -- %Y-%m-%d %H:%M
  · exact pyStrip_eq_self rfl (dch_nonspace (by omega))
      (getLast?_append_some (getLast?_cons_some (getLast?_append_some
        (getLast?_cons_some (getLast?_append_some (getLast?_cons_some
          (getLast?_append_some (getLast?_cons_some rfl))))))))
      (dch_nonspace (by omega))
  -- %d/%m/%Y
  · exact pyStrip_eq_self rfl (dch_nonspace (by omega))
      (getLast?_append_some (getLast?_cons_some (getLast?_append_some
        (getLast?_cons_some rfl)))) (dch_nonspace (by omega))
  -- %d/%m/%y
  · exact pyStrip_eq_self rfl (dch_nonspace (by omega))
      (getLast?_append_some (getLast?_cons_some (getLast?_append_some
        (getLast?_cons_some rfl)))) (dch_nonspace (by omega))
  -- %d-%m-%Y
  · exact pyStrip_eq_self rfl (dch_nonspace (by omega))
      (getLast?_append_some (getLast?_cons_some (getLast?_append_some
        (getLast?_cons_some rfl)))) (dch_nonspace (by omega))
  -- %d-%m-%y
  · exact pyStrip_eq_self rfl (dch_nonspace (by omega))
      (getLast?_append_some (getLast?_cons_some (getLast?_append_some
        (getLast?_cons_some rfl)))) (dch_nonspace (by omega))
  -- %d.%m.%Y
  · exact pyStrip_eq_self rfl (dch_nonspace (by omega))
      (getLast?_append_some (getLast?_cons_some (getLast?_append_some
        (getLast?_cons_some rfl)))) (dch_nonspace (by omega))
  -- %d.%m.%y
  · exact pyStrip_eq_self rfl (dch_nonspace (by omega))
      (getLast?_append_some (getLast?_cons_some (getLast?_append_some
        (getLast?_cons_some rfl)))) (dch_nonspace (by omega))
  -- %m/%d/%Y
  · exact pyStrip_eq_self rfl (dch_nonspace (by omega))
      (getLast?_append_some (getLast?_cons_some (getLast?_append_some
        (getLast?_cons_some rfl)))) (dch_nonspace (by omega))
  -- %m/%d/%y
  · exact pyStrip_eq_self rfl (dch_nonspace (by omega))
      (getLast?_append_some (getLast?_cons_some (getLast?_append_some
        (getLast?_cons_some rfl)))) (dch_nonspace (by omega))
  -- %m-%d-%Y
  · exact pyStrip_eq_self rfl (dch_nonspace (by omega))
      (getLast?_append_some (getLast?_cons_some (getLast?_append_some
        (getLast?_cons_some rfl)))) (dch_nonspace (by omega))
  -- %m-%d-%y
  · exact pyStrip_eq_self rfl (dch_nonspace (by omega))
      (getLast?_append_some (getLast?_cons_some (getLast?_append_some
        (getLast?_cons_some rfl)))) (dch_nonspace (by omega))
  -- %Y/%m/%d
  · exact pyStrip_eq_self rfl (dch_nonspace (by omega))
      (getLast?_append_some (getLast?_cons_some (getLast?_append_some
        (getLast?_cons_some rfl)))) (dch_nonspace (by omega))
  -- %Y.%m.%d
  · exact pyStrip_eq_self rfl (dch_nonspace (by omega))
      (getLast?_append_some (getLast?_cons_some (getLast?_append_some
        (getLast?_cons_some rfl)))) (dch_nonspace (by omega))
  -- %B %d, %Y
  · obtain ⟨ch, hch, hchns⟩ := monthNameU_head_nonspace hm1 hm2
    exact pyStrip_eq_self (head?_append_some hch) hchns
      (getLast?_append_some (getLast?_cons_some (getLast?_append_some
        (getLast?_cons_some (getLast?_cons_some
          (show (pad4 dt.year ++ []).getLast? = some (dch (dt.year % 10)) from rfl))))))
      (dch_nonspace (by omega))
  -- %b %d, %Y
  · obtain ⟨ch, hch, hchns⟩ := monthAbbrU_head_nonspace hm1 hm2
    exact pyStrip_eq_self (head?_append_some hch) hchns
      (getLast?_append_some (getLast?_cons_some (getLast?_append_some
        (getLast?_cons_some (getLast?_cons_some
          (show (pad4 dt.year ++ []).getLast? = some (dch (dt.year % 10)) from rfl))))))
      (dch_nonspace (by omega))
  -- %d %B %Y
  · have hlast : (pad2 dt.day ++ (' ' :: (monthNameU dt.mon ++ (' ' ::
        (pad4 dt.year ++ []))))).getLast? = some (dch (dt.year % 10)) :=
      getLast?_append_some (getLast?_cons_some (getLast?_append_some
        (getLast?_cons_some rfl)))
    exact pyStrip_eq_self rfl (dch_nonspace (by omega)) hlast (dch_nonspace (by omega))
  -- %d %b %Y
  · have hlast : (pad2 dt.day ++ (' ' :: (monthAbbrU dt.mon ++ (' ' ::
        (pad4 dt.year ++ []))))).getLast? = some (dch (dt.year % 10)) :=
      getLast?_append_some (getLast?_cons_some (getLast?_append_some
        (getLast?_cons_some rfl)))
    exact pyStrip_eq_self rfl (dch_nonspace (by omega)) hlast (dch_nonspace (by omega))

/-! ## Detection on a column of conforming values -/

theorem findPattern_of_mem (p : String × List Tok) (h : p ∈ formatPatterns) :
    findPattern p.1 = some p.2 := by
  fin_cases h <;> rfl

theorem dropna_map_some (vs : List String) : ∀ i,
    dropnaAux i (vs.map some) = List.enumFrom i vs := by
  induction vs with
  | nil => intro i; rfl
  | cons v rest ih => intro i; simp [dropnaAux, List.enumFrom, ih]

theorem collect_nil_of_all {rx : List Tok} {fmt : String} {vs : List String}
    (h : ∀ v ∈ vs, matchS rx (pyStripS v) = true ∧ parseOkS fmt (pyStripS v) = true) :
    ∀ i, collectMismatches rx fmt vs i [] = [] := by
  induction vs with
  | nil => intro i; rfl
  | cons v rest ih =>
    intro i
    have hv := h v (by simp)
    simp only [collectMismatches, hv.1, hv.2, Bool.not_true]
    simp only [Bool.false_eq_true, if_false, List.length_nil]
    rw [if_neg (by omega)]
    exact ih (fun w hw => h w (by simp [hw])) (i + 1)

theorem detect_ok_all_conform {name fmt : String} {rx : List Tok} {v0 : String}
    {vrest : List String} (hfind : findPattern fmt = some rx)
    (hdet : detectFromValueS (pyStripS v0) = some fmt)
    (hall : ∀ v ∈ v0 :: vrest,
      matchS rx (pyStripS v) = true ∧ parseOkS fmt (pyStripS v) = true) :
    detect_date_format ⟨[(name, (v0 :: vrest).map some)]⟩ name =
      Except.ok (some fmt) := by
  have hlook : lookupCol ⟨[(name, (v0 :: vrest).map some)]⟩ name =
      some ((v0 :: vrest).map some) := by
    simp [lookupCol, List.find?]
  have hdrop : dropna ((v0 :: vrest).map some) = (0, v0) :: List.enumFrom 1 vrest := by
    have h0 := dropna_map_some (v0 :: vrest) 0
    simpa [dropna, List.enumFrom] using h0
  have hvalid : validateConsistency (((0, v0) :: List.enumFrom 1 vrest).map Prod.snd)
      (((0, v0) :: List.enumFrom 1 vrest).map Prod.fst) fmt name = none := by
    have hsv : ((0, v0) :: List.enumFrom 1 vrest).map Prod.snd = v0 :: vrest := by
      simp [List.enumFrom_map_snd]
    rw [hsv]
    unfold validateConsistency
    simp only [hfind, collect_nil_of_all hall 0]
  unfold detect_date_format
  simp only [hlook, hdrop, hdet, hvalid]

/-- C2, as written, fails on structurally ambiguous catalog entries: the value
`"02/03/2024"` generated to conform exactly to `%m/%d/%Y` (February 3, 2024)
regex-matches and strictly parses under `%m/%d/%Y`, yet `detectFormat` on a
column holding exactly that value returns the earlier catalog entry
`%d/%m/%Y`, not the generating format. -/
theorem c2_counterexample :
    genValue "%m/%d/%Y" ⟨2024, 2, 3, 0, 0, 0⟩ = "02/03/2024".data ∧
    ValidDT ⟨2024, 2, 3, 0, 0, 0⟩ ∧
    matchS [Tok.digits 1 2, Tok.lit '/', Tok.digits 1 2, Tok.lit '/', Tok.digits 4 4]
      "02/03/2024" = true ∧
    parseOkS "%m/%d/%Y" "02/03/2024" = true ∧
    detect_date_format ⟨[("Date", [some "02/03/2024"])]⟩ "Date" =
      Except.ok (some "%d/%m/%Y") ∧
    ("%d/%m/%Y" : String) ≠ "%m/%d/%Y" :=
  ⟨by decide, by decide, by decide, by decide, by decide, by decide⟩

/-- C2 (amended): for every catalog entry `(format, regex)` and every value
generated (strftime-rendered) to conform exactly to that format at a valid
datetime, the value matches that entry's regex and strictly parses under that
format; and `detectFormat` on a column whose values are all generated that way
returns the generating format *provided* the generating format is what
detection picks for the first value, i.e. the first catalog entry that both
regex-matches and strictly parses it (for ambiguous shapes an earlier entry
wins instead, e.g. `"02/03/2024"` generated under `%m/%d/%Y` detects as
`%d/%m/%Y`). -/
theorem c2_format_round_trip :
    (∀ p ∈ formatPatterns, ∀ dt : DT, ValidDT dt →
      matchToks p.2 (genValue p.1 dt) = true ∧ parseOk p.1 (genValue p.1 dt) = true) ∧
    (∀ (fmt : String) (rx : List Tok) (dt0 : DT) (dts : List DT) (name : String),
      (fmt, rx) ∈ formatPatterns → ValidDT dt0 → (∀ d ∈ dts, ValidDT d) →
      detectFromValue (genValue fmt dt0) = some fmt →
      detect_date_format
          ⟨[(name, (dt0 :: dts).map fun d => some (⟨genValue fmt d⟩ : String))]⟩ name =
        Except.ok (some fmt)) := by
  constructor
  · exact rt_match_parse
  · intro fmt rx dt0 dts name hmem hdt0 hdts hdet
    have hframe : ((dt0 :: dts).map fun d => some (⟨genValue fmt d⟩ : String)) =
        (((⟨genValue fmt dt0⟩ : String) ::
          dts.map fun d => (⟨genValue fmt d⟩ : String)).map some) := by
      simp [List.map_map]
    rw [hframe]
    have hstrip : ∀ d : DT, ValidDT d →
        pyStripS ⟨genValue fmt d⟩ = (⟨genValue fmt d⟩ : String) := by
      intro d hd
      show (⟨pyStrip (genValue fmt d)⟩ : String) = ⟨genValue fmt d⟩
      exact congrArg String.mk (genValue_strip (fmt, rx) hmem d hd)
    apply detect_ok_all_conform (findPattern_of_mem (fmt, rx) hmem)
    · show detectFromValueS (pyStripS ⟨genValue fmt dt0⟩) = some fmt
      rw [hstrip dt0 hdt0]
      exact hdet
    · intro v hv
      rcases List.mem_cons.1 hv with rfl | hv
      · rw [hstrip dt0 hdt0]
        have h := rt_match_parse (fmt, rx) hmem dt0 hdt0
        exact ⟨h.1, h.2⟩
      · obtain ⟨d, hd, rfl⟩ := List.mem_map.1 hv
        rw [hstrip d (hdts d hd)]
        have h := rt_match_parse (fmt, rx) hmem d (hdts d hd)
        exact ⟨h.1, h.2⟩

/-- Witness for C2: entry `%Y-%m-%d` at January 15 and February 20, 2024. -/
theorem c2_witness :
    (("%Y-%m-%d",
      [Tok.digits 4 4, Tok.lit '-', Tok.digits 1 2, Tok.lit '-', Tok.digits 1 2]) ∈
        formatPatterns) ∧
    ValidDT ⟨2024, 1, 15, 0, 0, 0⟩ ∧
    (matchToks [Tok.digits 4 4, Tok.lit '-', Tok.digits 1 2, Tok.lit '-', Tok.digits 1 2]
        (genValue "%Y-%m-%d" ⟨2024, 1, 15, 0, 0, 0⟩) = true ∧
      parseOk "%Y-%m-%d" (genValue "%Y-%m-%d" ⟨2024, 1, 15, 0, 0, 0⟩) = true) ∧
    detect_date_format
        ⟨[("Date", [some ⟨genValue "%Y-%m-%d" ⟨2024, 1, 15, 0, 0, 0⟩⟩,
                    some ⟨genValue "%Y-%m-%d" ⟨2024, 2, 20, 0, 0, 0⟩⟩])]⟩ "Date" =
      Except.ok (some "%Y-%m-%d") :=
  ⟨by decide, by decide,
    c2_format_round_trip.1
      ("%Y-%m-%d",
        [Tok.digits 4 4, Tok.lit '-', Tok.digits 1 2, Tok.lit '-', Tok.digits 1 2])
      (by decide) ⟨2024, 1, 15, 0, 0, 0⟩ (by decide),
    c2_format_round_trip.2 "%Y-%m-%d"
      [Tok.digits 4 4, Tok.lit '-', Tok.digits 1 2, Tok.lit '-', Tok.digits 1 2]
      ⟨2024, 1, 15, 0, 0, 0⟩ [⟨2024, 2, 20, 0, 0, 0⟩] "Date"
      (by decide) (by decide) (by decide) (by decide)⟩

end Excelsior
